import Mathlib

/-!
# OSPRay volume lifecycle and process groups: a shallow embedding

Embedding of `ospray/volume/Volume.cpp`,
`ospray/volume/structured/bricked/GhostBlockBrickedVolume.cpp` and
`ospray/mpi/MPICommon.h`.

Conventions of the embedding.

* A C++ member function that may throw becomes a function returning an
  `Outcome` together with the object as it stands when control leaves the function
  (a thrown exception does not undo assignments already made to `this`).
* A nullable pointer is an `Option`; `nullptr` is `none`.
* `int` values and `vec3i` components are `Int`. The one `int` product of the embedded
  code, the task count `y * z`, is taken in 32 bits, two's complement (`int_mul`);
  `size_t` arithmetic is taken modulo 2^64 (`size_t_mul`).
* `float` values are only stored and forwarded by the embedded code, never
  computed with; they are carried by their IEEE-754 single-precision bit pattern.
* Collaborators whose code is not part of the files above (the type-name resolver,
  `scaleRegion`, `rcp`, the address returned by the native allocator) are the
  fields of `Env`, over which every statement is universally quantified; the queries
  of the native backend are the fields of `NativeQueries`, likewise.
* A failed `assert` ends the run; that end is the precondition failure `IllegalState`.
  For `computeSamples` the build is a parameter (`Build.NDEBUG`): with assertions
  compiled in a failed `assert` aborts the process (`Ending.aborted`), with `NDEBUG` the
  `assert` is no code at all.
* The MPI library is modelled after the MPI standard: a communicator is its ordered
  local group and, if it has one, its remote group; a rank is a position in the group.
-/

namespace ospray

/-! ## Values -/

/-- Single-precision value, carried by its IEEE-754 bit pattern. -/
structure F32 where
  bits : Nat
deriving DecidableEq, Repr

/-- Literal `0.f`. -/
def F32.zero : F32 := ⟨0x00000000⟩
/-- Literal `1.f`. -/
def F32.one : F32 := ⟨0x3F800000⟩
/-- Literal `0.3f`. -/
def F32.lit0_3 : F32 := ⟨0x3E99999A⟩
/-- Literal `20.f`. -/
def F32.lit20 : F32 := ⟨0x41A00000⟩
/-- Literal `15.0f`. -/
def F32.lit15 : F32 := ⟨0x41700000⟩
/-- Literal `2.0f`. -/
def F32.lit2 : F32 := ⟨0x40000000⟩
/-- Literal `0.03f`. -/
def F32.lit0_03 : F32 := ⟨0x3CF5C28F⟩
/-- Literal `0.125f`. -/
def F32.lit0_125 : F32 := ⟨0x3E000000⟩

/-- Type `vec3i` of ospcommon: three `int` components. -/
structure vec3i where
  x : Int
  y : Int
  z : Int
deriving DecidableEq, Repr

/-- Constructor `vec3i(a)`: the same value on the three axes. -/
def vec3i.splat (a : Int) : vec3i := ⟨a, a, a⟩

/-- Type `vec3f` of ospcommon: three `float` components. -/
structure vec3f where
  x : F32
  y : F32
  z : F32
deriving DecidableEq, Repr

/-- Constructor `vec3f(a)`: the same value on the three axes. -/
def vec3f.splat (a : F32) : vec3f := ⟨a, a, a⟩

/-- Type `box3f`: an axis-aligned box given by two corners. -/
structure box3f where
  lower : vec3f
  upper : vec3f
deriving DecidableEq, Repr

/-- Type `LinearSpace3f`: three basis vectors. -/
structure LinearSpace3f where
  vx : vec3f
  vy : vec3f
  vz : vec3f
deriving DecidableEq, Repr

/-- Type `AffineSpace3f`: a linear part `l` and a translation `p`. -/
structure AffineSpace3f where
  l : LinearSpace3f
  p : vec3f
deriving DecidableEq, Repr

/-- The product of two `int` values as the 32-bit `int` that holds it: the product itself
when it lies in [-2^31, 2^31), and otherwise the value that two's-complement wrap-around
leaves (C++ gives a signed overflow no defined result; this is what the machine
computes). -/
def int_mul (a b : Int) : Int :=
  (a * b + 2 ^ 31) % 2 ^ 32 - 2 ^ 31

/-- Modelled from the spec: `reduce_min` of ospcommon (its header is absent from the
embedded files); the spec reads the test `reduce_min(dimensions) <= 0` as "any axis ≤ 0",
which is the minimum of the three components. -/
def reduce_min (v : vec3i) : Int := min v.x (min v.y v.z)

/-- Modelled from the spec: the voxel element type tag, "one of a fixed enumeration, e.g.
unsigned-byte / short / float / double"; the enum `OSPDataType` is declared in a header
absent from the embedded files. `OSP_UNKNOWN` is the value the code tests against. -/
inductive OSPDataType where
  | OSP_UCHAR
  | OSP_SHORT
  | OSP_FLOAT
  | OSP_DOUBLE
  | OSP_UNKNOWN
deriving DecidableEq, Repr

/-- A `void*` address; `nullptr` is address 0. -/
abbrev Ptr := Nat

/-- The null address. -/
def nullptr : Ptr := 0

/-! ## Errors and outcomes -/

/-- The error taxonomy of the spec. The code throws `std::runtime_error` with a message;
each constructor names the throw site it stands for. -/
inductive Error where
  /-- Message "the volume data must be set via ospSetRegion() prior to commit for this volume type". -/
  | PrecommitRequired
  /-- Message "unrecognized voxel type (must be set before calling ospSetRegion())". -/
  | UnrecognizedType
  /-- Message "invalid volume dimensions (must be set before calling ospSetRegion())". -/
  | InvalidDimensions
  /-- Message "nullptr source in GhostBlockBrickedVolume::setRegion()", raised by `Assert2`. -/
  | InvalidArgument
  /-- Message "no transfer function specified on the volume!". -/
  | MissingDependency
  /-- Failed `assert(ispcEquivalent != nullptr)`: a query before the native binding exists. -/
  | IllegalState
  /-- Message "MPI call returned error", thrown by the macro `MPI_CALL`. -/
  | NativeBackendFailure
  /-- Exception `std::length_error`, thrown by the constructor `std::vector<float>(count)`
  when `count` exceeds the vector's `max_size()`. -/
  | LengthError
deriving DecidableEq, Repr

/-- How control leaves a member function: by `return` or by a thrown exception. -/
inductive Outcome (α : Type) where
  | returned (a : α)
  | threw (e : Error)
deriving DecidableEq, Repr

/-- How a run of `computeSamples` ends: by `return`, by a thrown exception, by the abort
of the process that a failed `assert` causes (`e` is the name the spec gives to that
failure), or in undefined behaviour (a native call through a null handle). -/
inductive Ending (α : Type) where
  | returned (a : α)
  | threw (e : Error)
  | aborted (e : Error)
  | undefined
deriving DecidableEq, Repr

/-- What the build and the C++ library fix: whether `NDEBUG` is defined, which turns every
`assert` into no code, and `std::vector<float>::max_size()`. -/
structure Build where
  NDEBUG : Bool
  vector_max_size : Nat

/-- The value `sizeof(float)`. -/
def sizeof_float : Nat := 4

/-- The product of two `size_t` values as the 64-bit `size_t` that holds it (unsigned
arithmetic is modulo 2^64). -/
def size_t_mul (a b : Nat) : Nat :=
  (a * b) % 2 ^ 64

/-! ## Parameter store -/

/-- An object that can be attached as a parameter; `ie` is what `getIE()` returns,
the handle consumable by the native backend. -/
structure ManagedObject where
  ie : Nat
deriving DecidableEq, Repr

/-- Method `getIE()`. -/
def ManagedObject.getIE (o : ManagedObject) : Nat := o.ie

/-- A typed parameter value. -/
inductive ParamValue where
  | int1 (v : Int)
  | float1 (v : F32)
  | int3 (v : vec3i)
  | float3 (v : vec3f)
  | string (s : String)
  | object (o : ManagedObject)
deriving DecidableEq, Repr

/-- Modelled from the spec: the ParameterStore, a "typed key→value table" (the class
`ManagedObject` that implements it is absent from the embedded files). Entries are kept
in insertion order, one per name. -/
abbrev ParameterStore := List (String × ParamValue)

/-- Modelled from the spec: lookup of a name in the ParameterStore. -/
def findParam : ParameterStore → String → Option ParamValue
  | [], _ => none
  | (n, t) :: ps, name => if n = name then some t else findParam ps name

/-- Modelled from the spec: `setParam(name, value)`, a typed accessor into the
ParameterStore; an existing entry of that name is overwritten, otherwise one is added. -/
def setParam : ParameterStore → String → ParamValue → ParameterStore
  | [], name, t => [(name, t)]
  | (n, old) :: ps, name, t =>
    if n = name then (n, t) :: ps else (n, old) :: setParam ps name t

/-- Modelled from the spec: `getParam(name, default)` at type `int`; "unknown keys return
the supplied default, never fail". -/
def getParam1i (ps : ParameterStore) (name : String) (dflt : Int) : Int :=
  match findParam ps name with
  | some (.int1 v) => v
  | _ => dflt

/-- Modelled from the spec: `getParam(name, default)` at type `float`. -/
def getParam1f (ps : ParameterStore) (name : String) (dflt : F32) : F32 :=
  match findParam ps name with
  | some (.float1 v) => v
  | _ => dflt

/-- Modelled from the spec: `getParam(name, default)` at type `vec3i`. -/
def getParam3i (ps : ParameterStore) (name : String) (dflt : vec3i) : vec3i :=
  match findParam ps name with
  | some (.int3 v) => v
  | _ => dflt

/-- Modelled from the spec: `getParam(name, default)` at type `vec3f`. -/
def getParam3f (ps : ParameterStore) (name : String) (dflt : vec3f) : vec3f :=
  match findParam ps name with
  | some (.float3 v) => v
  | _ => dflt

/-- Modelled from the spec: `getParam(name, default)` at type string. -/
def getParamString (ps : ParameterStore) (name : String) (dflt : String) : String :=
  match findParam ps name with
  | some (.string s) => s
  | _ => dflt

/-- Modelled from the spec: `getParam(name, default)` at object type; the default of the
only call site is `nullptr`, so the result is an optional object. -/
def getParamObject (ps : ParameterStore) (name : String)
    (dflt : Option ManagedObject) : Option ManagedObject :=
  match findParam ps name with
  | some (.object o) => some o
  | _ => dflt

/-! ## The native binding -/

/-- One call of `ispc::GBBV_setRegion`, as received by the native backend. -/
structure SetRegionTask where
  source : Ptr
  regionCoords : vec3i
  regionSize : vec3i
  taskIndex : Int
deriving DecidableEq, Repr

/-- Modelled from the spec: the native compute binding reached through `ispcEquivalent`,
with the spec's narrow call contract (`createVolume(voxelType, dims) → handle`,
`setRegion(handle, buf, origin, extent, taskIndex)`, `setX(handle, value)` for each
committed parameter). `handle` is the address returned at creation, `voxelType` and
`dimensions` are the creation arguments, each `setX` field holds the value last pushed
(`none` until the first push), and `setRegionTasks` records the scatter-copy tasks received,
oldest first. -/
structure IspcVolume where
  handle : Nat
  voxelType : OSPDataType
  dimensions : vec3i
  gradientShadingEnabled : Option Int
  preIntegration : Option Int
  singleShade : Option Int
  adaptiveSampling : Option Int
  adaptiveScalar : Option F32
  adaptiveMaxSamplingRate : Option F32
  adaptiveBacktrack : Option F32
  samplingRate : Option F32
  specular : Option vec3f
  ns : Option F32
  transferFunction : Option Nat
  volumeClippingBox : Option box3f
  xfm : Option AffineSpace3f
  rcp_xfm : Option AffineSpace3f
  setRegionTasks : List SetRegionTask
deriving DecidableEq, Repr

/-! ## The volume -/

/-- The fields of `Volume` / `GhostBlockBrickedVolume` that the embedded code reads or
writes: the parameter store, the nullable native binding `ispcEquivalent`, and the
members `voxelType` and `dimensions`. -/
structure Volume where
  params : ParameterStore
  ispcEquivalent : Option IspcVolume
  voxelType : String
  dimensions : vec3i
deriving DecidableEq, Repr

/-- What `StructuredVolume::scaleRegion(source, out, regionSize, regionCoords)` hands back:
its `bool` result and the final values of its three reference arguments. -/
structure ScaledRegion where
  upsampling : Bool
  out : Ptr
  regionSize : vec3i
  regionCoords : vec3i
deriving DecidableEq, Repr

/-- The collaborators of the embedded code whose definitions are not in the embedded
files. Every statement holds for every `Env`.

* `typeForString` resolves a voxel type name to the enumeration (`OSP_UNKNOWN` when the
  name is not a known type);
* `scaleRegion self source out regionSize regionCoords` is `StructuredVolume::scaleRegion`,
  called with the initial values of its reference arguments;
* `rcp` is the inverse of an affine transformation (floating-point arithmetic);
* `GBBV_createInstance` gives the address of the object the native allocator returns. -/
structure Env where
  typeForString : String → OSPDataType
  scaleRegion : Volume → Ptr → Ptr → vec3i → vec3i → ScaledRegion
  rcp : AffineSpace3f → AffineSpace3f
  GBBV_createInstance : OSPDataType → vec3i → Nat

/-- Modelled from the spec: `getVoxelType()` of `StructuredVolume` (absent from the
embedded files): "resolve voxel type from a string" held in the member `voxelType`. -/
def Volume.getVoxelType (env : Env) (self : Volume) : OSPDataType :=
  env.typeForString self.voxelType

/-- Apply a native call to the object behind `ispcEquivalent`. A call through a null
handle is outside the model and leaves the volume as it is. -/
def Volume.withIE (self : Volume) (f : IspcVolume → IspcVolume) : Volume :=
  { self with ispcEquivalent := self.ispcEquivalent.map f }

namespace ispc

/-- Native allocation `GBBV_createInstance(this, voxelType, dimensions)`: a new object with
nothing pushed yet and no task received. -/
def GBBV_createInstance (env : Env) (voxelType : OSPDataType) (dimensions : vec3i) :
    IspcVolume :=
  { handle := env.GBBV_createInstance voxelType dimensions
    voxelType := voxelType
    dimensions := dimensions
    gradientShadingEnabled := none
    preIntegration := none
    singleShade := none
    adaptiveSampling := none
    adaptiveScalar := none
    adaptiveMaxSamplingRate := none
    adaptiveBacktrack := none
    samplingRate := none
    specular := none
    ns := none
    transferFunction := none
    volumeClippingBox := none
    xfm := none
    rcp_xfm := none
    setRegionTasks := [] }

/-- Native call `GBBV_setRegion(handle, source, regionCoords, regionSize, taskIndex)`. -/
def GBBV_setRegion (ie : IspcVolume) (source : Ptr) (regionCoords regionSize : vec3i)
    (taskIndex : Int) : IspcVolume :=
  { ie with setRegionTasks := ie.setRegionTasks ++ [⟨source, regionCoords, regionSize, taskIndex⟩] }

/-- Native call `Volume_setGradientShadingEnabled`. -/
def Volume_setGradientShadingEnabled (ie : IspcVolume) (value : Int) : IspcVolume :=
  { ie with gradientShadingEnabled := some value }

/-- Native call `Volume_setPreIntegration`. -/
def Volume_setPreIntegration (ie : IspcVolume) (value : Int) : IspcVolume :=
  { ie with preIntegration := some value }

/-- Native call `Volume_setSingleShade`. -/
def Volume_setSingleShade (ie : IspcVolume) (value : Int) : IspcVolume :=
  { ie with singleShade := some value }

/-- Native call `Volume_setAdaptiveSampling`. -/
def Volume_setAdaptiveSampling (ie : IspcVolume) (value : Int) : IspcVolume :=
  { ie with adaptiveSampling := some value }

/-- Native call `Volume_setAdaptiveScalar`. -/
def Volume_setAdaptiveScalar (ie : IspcVolume) (value : F32) : IspcVolume :=
  { ie with adaptiveScalar := some value }

/-- Native call `Volume_setAdaptiveMaxSamplingRate`. -/
def Volume_setAdaptiveMaxSamplingRate (ie : IspcVolume) (value : F32) : IspcVolume :=
  { ie with adaptiveMaxSamplingRate := some value }

/-- Native call `Volume_setAdaptiveBacktrack`. -/
def Volume_setAdaptiveBacktrack (ie : IspcVolume) (value : F32) : IspcVolume :=
  { ie with adaptiveBacktrack := some value }

/-- Native call `Volume_setSamplingRate`. -/
def Volume_setSamplingRate (ie : IspcVolume) (value : F32) : IspcVolume :=
  { ie with samplingRate := some value }

/-- Native call `Volume_setSpecular`. -/
def Volume_setSpecular (ie : IspcVolume) (value : vec3f) : IspcVolume :=
  { ie with specular := some value }

/-- Native call `Volume_setNs`. -/
def Volume_setNs (ie : IspcVolume) (value : F32) : IspcVolume :=
  { ie with ns := some value }

/-- Native call `Volume_setTransferFunction`. -/
def Volume_setTransferFunction (ie : IspcVolume) (value : Nat) : IspcVolume :=
  { ie with transferFunction := some value }

/-- Native call `Volume_setVolumeClippingBox`. -/
def Volume_setVolumeClippingBox (ie : IspcVolume) (value : box3f) : IspcVolume :=
  { ie with volumeClippingBox := some value }

/-- Native call `Volume_setAffineTransformations`. -/
def Volume_setAffineTransformations (ie : IspcVolume) (xfm rcp_xfm : AffineSpace3f) :
    IspcVolume :=
  { ie with xfm := some xfm, rcp_xfm := some rcp_xfm }

end ispc

/-- Modelled from the spec: the macro `Assert2(expr, explanation)` (its header is absent
from the embedded files): "validate `source` is non-null (`InvalidArgument` otherwise)".
The result is the error raised, if any. -/
def Assert2 (expr : Bool) : Option Error :=
  if expr then none else some Error.InvalidArgument

/-- Modelled from the spec: `tasking::parallel_for(nTasks, fcn)` of ospcommon (absent from
the embedded files), "a data-parallel map over an explicit task-index range" with a "full
join before `setRegion` returns": `fcn` runs once for each index `0, …, nTasks - 1` (not at
all when `nTasks ≤ 0`). The tasks share no state; their effects are recorded in index
order. -/
def parallel_for {σ : Type} (nTasks : Int) (fcn : Int → σ → σ) (s : σ) : σ :=
  (List.range nTasks.toNat).foldl (fun acc i => fcn (Int.ofNat i) acc) s

/-! ## `Volume.cpp` -/

/-- Method `Volume::commit()` (lines 41-43): the body is empty. -/
def Volume.commit (self : Volume) : Outcome Unit × Volume :=
  (Outcome.returned (), self)

/-- The queries of the native backend that `Volume.cpp` calls, whose code is not in the
embedded files (the spec's `computeSamples(handle, positions, count) → buffer` and
`getBoundingBox(handle) → (lower, upper)`).

* `Volume_computeSamples ie worldCoordinates count` is the buffer that the pointer handed
  to `ispc::Volume_computeSamples` designates when the call returns, as a function from
  element index to value: element `i` is the backend's `i`-th sample;
* `Volume_getBoundingBox ie` is the box that `ispc::Volume_getBoundingBox` writes. -/
structure NativeQueries where
  Volume_computeSamples : IspcVolume → List vec3f → Nat → Nat → F32
  Volume_getBoundingBox : IspcVolume → box3f

/-- Library call `memcpy(dst, src, n * sizeof(float))`, a copy of `n` floats: the
content of the destination afterwards, which is the elements `0, …, n - 1` of the source,
in that order. -/
def memcpy (src : Nat → F32) (n : Nat) : List F32 :=
  (List.range n).map src

/-- Method `Volume::computeSamples(results, worldCoordinates, count)` (lines 45-66); the
value returned is the buffer left in `*results`, and `count` is a `size_t`. The block
behind `*results` has `count * sizeof(float)` bytes, computed in `size_t`, and the
final `memcpy` copies that same number of bytes. Allocation is taken to succeed. -/
def Volume.computeSamples (build : Build) (nq : NativeQueries) (self : Volume)
    (worldCoordinates : List vec3f) (count : Nat) : Ending (List F32) × Volume :=
  -- The ISPC volume container must exist at this point.
  if build.NDEBUG = false ∧ self.ispcEquivalent = none then
    (Ending.aborted Error.IllegalState, self)
  else
    -- Allocate memory for returned volume samples
    let nbytes := size_t_mul count sizeof_float
    -- std::vector<float> ispcResults(count);
    if build.vector_max_size < count then
      (Ending.threw Error.LengthError, self)
    else
      match self.ispcEquivalent with
      | none => (Ending.undefined, self)
      | some ie =>
        -- Compute the sample values.
        let ptr := nq.Volume_computeSamples ie worldCoordinates count
        -- Copy samples and free ISPC results memory
        let results := memcpy ptr (nbytes / sizeof_float)
        (Ending.returned results, self)

/-- Method `Volume::finish()` (lines 68-78). A failed `assert(ispcEquivalent != nullptr)`
ends the run there; that end is the precondition failure `IllegalState`. -/
def Volume.finish (nq : NativeQueries) (self : Volume) : Outcome Unit × Volume :=
  -- The ISPC volume container must exist at this point.
  match self.ispcEquivalent with
  | none => (Outcome.threw Error.IllegalState, self)
  | some ie =>
    -- Make the volume bounding box visible to the application.
    let boundingBox := nq.Volume_getBoundingBox ie
    let self := { self with
      params := ospray.setParam self.params "boundingBoxMin" (ParamValue.float3 boundingBox.lower) }
    let self := { self with
      params := ospray.setParam self.params "boundingBoxMax" (ParamValue.float3 boundingBox.upper) }
    (Outcome.returned (), self)

/-- Method `Volume::updateEditableParameters()` (lines 80-144): the push of the editable
parameters into the native binding. -/
def Volume.updateEditableParameters (env : Env) (self : Volume) : Outcome Unit × Volume :=
  -- Set the gradient shading flag for the renderer.
  let self := self.withIE fun ie =>
    ispc.Volume_setGradientShadingEnabled ie (getParam1i self.params "gradientShadingEnabled" 0)
  let self := self.withIE fun ie =>
    ispc.Volume_setPreIntegration ie (getParam1i self.params "preIntegration" 0)
  let self := self.withIE fun ie =>
    ispc.Volume_setSingleShade ie (getParam1i self.params "singleShade" 1)
  let self := self.withIE fun ie =>
    ispc.Volume_setAdaptiveSampling ie (getParam1i self.params "adaptiveSampling" 1)
  let self := self.withIE fun ie =>
    ispc.Volume_setAdaptiveScalar ie (getParam1f self.params "adaptiveScalar" F32.lit15)
  let self := self.withIE fun ie =>
    ispc.Volume_setAdaptiveMaxSamplingRate ie
      (getParam1f self.params "adaptiveMaxSamplingRate" F32.lit2)
  let self := self.withIE fun ie =>
    ispc.Volume_setAdaptiveBacktrack ie (getParam1f self.params "adaptiveBacktrack" F32.lit0_03)
  -- Set the recommended sampling rate for ray casting based renderers.
  let self := self.withIE fun ie =>
    ispc.Volume_setSamplingRate ie (getParam1f self.params "samplingRate" F32.lit0_125)
  let specular := getParam3f self.params "specular"
    (getParam3f self.params "ks" (getParam3f self.params "Ks" (vec3f.splat F32.lit0_3)))
  let self := self.withIE fun ie => ispc.Volume_setSpecular ie specular
  let Ns := getParam1f self.params "ns" (getParam1f self.params "Ns" F32.lit20)
  let self := self.withIE fun ie => ispc.Volume_setNs ie Ns
  -- Set the transfer function.
  match getParamObject self.params "transferFunction" none with
  | none => (Outcome.threw Error.MissingDependency, self)
  | some transferFunction =>
    let self := self.withIE fun ie =>
      ispc.Volume_setTransferFunction ie transferFunction.getIE
    -- Set the volume clipping box (empty by default for no clipping).
    let volumeClippingBox : box3f :=
      ⟨getParam3f self.params "volumeClippingBoxLower" (vec3f.splat F32.zero),
       getParam3f self.params "volumeClippingBoxUpper" (vec3f.splat F32.zero)⟩
    let self := self.withIE fun ie => ispc.Volume_setVolumeClippingBox ie volumeClippingBox
    -- Set affine transformation
    let xfm : AffineSpace3f :=
      { l := { vx := getParam3f self.params "xfm.l.vx" ⟨F32.one, F32.zero, F32.zero⟩
               vy := getParam3f self.params "xfm.l.vy" ⟨F32.zero, F32.one, F32.zero⟩
               vz := getParam3f self.params "xfm.l.vz" ⟨F32.zero, F32.zero, F32.one⟩ }
        p := getParam3f self.params "xfm.p" ⟨F32.zero, F32.zero, F32.zero⟩ }
    let rcp_xfm := env.rcp xfm
    let self := self.withIE fun ie => ispc.Volume_setAffineTransformations ie xfm rcp_xfm
    (Outcome.returned (), self)

/-- Modelled from the spec: `StructuredVolume::commit()`, the base-class commit that
`GhostBlockBrickedVolume::commit` delegates to (its file is absent from the embedded
files). In the spec the override "delegates remaining parameter work to the base
`Volume::commit()`", which "reads the full set of recognized parameters … and pushes each
into the native binding" and "fails with `MissingDependency` if no transfer function
object is attached": that push is `Volume::updateEditableParameters`. -/
def StructuredVolume.commit (env : Env) (self : Volume) : Outcome Unit × Volume :=
  self.updateEditableParameters env

/-! ## `GhostBlockBrickedVolume.cpp` -/

namespace GhostBlockBrickedVolume

/-- Method `GhostBlockBrickedVolume::commit()` (lines 35-49). The base-class commit it
ends with is the argument `StructuredVolume_commit`. -/
def commit (StructuredVolume_commit : Volume → Outcome Unit × Volume) (self : Volume) :
    Outcome Unit × Volume :=
  if self.ispcEquivalent = none then
    (Outcome.threw Error.PrecommitRequired, self)
  else
    -- StructuredVolume commit actions.
    StructuredVolume_commit self

/-- Method `GhostBlockBrickedVolume::createEquivalentISPC()` (lines 99-120). -/
def createEquivalentISPC (env : Env) (self : Volume) : Outcome Unit × Volume :=
  -- Get the voxel type.
  let self := { self with voxelType := getParamString self.params "voxelType" "unspecified" }
  if self.getVoxelType env = OSPDataType.OSP_UNKNOWN then
    (Outcome.threw Error.UnrecognizedType, self)
  else
    -- Get the volume dimensions.
    let self := { self with dimensions := getParam3i self.params "dimensions" (vec3i.splat 0) }
    if reduce_min self.dimensions ≤ 0 then
      (Outcome.threw Error.InvalidDimensions, self)
    else
      -- Create an ISPC GhostBlockBrickedVolume object.
      let self := { self with
        ispcEquivalent := some (ispc.GBBV_createInstance env (self.getVoxelType env) self.dimensions) }
      (Outcome.returned (), self)

/-- Method `GhostBlockBrickedVolume::setRegion(source, regionCoords, regionSize)`
(lines 51-97). The C++ `return true` of an `int` function is the value 1. -/
def setRegion (env : Env) (self : Volume) (source : Ptr) (regionCoords regionSize : vec3i) :
    Outcome Int × Volume :=
  -- Create the equivalent ISPC volume container.
  let created : Outcome Unit × Volume :=
    if self.ispcEquivalent = none then createEquivalentISPC env self
    else (Outcome.returned (), self)
  match created with
  | (Outcome.threw e, self) => (Outcome.threw e, self)
  | (Outcome.returned _, self) =>
    match Assert2 (decide (source ≠ nullptr)) with
    | some e => (Outcome.threw e, self)
    | none =>
      let finalRegionSize := regionSize
      let finalRegionCoords := regionCoords
      let finalSource := source
      let scaled := env.scaleRegion self source finalSource finalRegionSize finalRegionCoords
      let upsampling := scaled.upsampling
      let finalSource := scaled.out
      let finalRegionSize := scaled.regionSize
      let finalRegionCoords := scaled.regionCoords
      -- Copy voxel data into the volume.
      let NTASKS := int_mul finalRegionSize.y finalRegionSize.z
      let self := parallel_for NTASKS (fun taskIndex (self : Volume) =>
        self.withIE fun ie =>
          ispc.GBBV_setRegion ie finalSource finalRegionCoords finalRegionSize taskIndex) self
      -- If upsampling, the scratch buffer behind finalSource is freed (no effect on the model).
      let _freed := upsampling
      (Outcome.returned 1, self)

end GhostBlockBrickedVolume

/-- Method `setParam(name, value)` on the volume: a write into its parameter store. -/
def Volume.setParam (self : Volume) (name : String) (value : ParamValue) : Volume :=
  { self with params := ospray.setParam self.params name value }

/-- The scatter-copy tasks the native backend has received for this volume so far (none
when there is no native binding). -/
def Volume.submittedTasks (self : Volume) : List SetRegionTask :=
  match self.ispcEquivalent with
  | some ie => ie.setRegionTasks
  | none => []

/-- The task records of one scatter-copy of `nTasks` tasks: one per task index
`0, …, nTasks - 1`, in index order, all with the same buffer, origin and extent. -/
def scatterTasks (source : Ptr) (regionCoords regionSize : vec3i) (nTasks : Int) :
    List SetRegionTask :=
  (List.range nTasks.toNat).map fun i => ⟨source, regionCoords, regionSize, Int.ofNat i⟩

/-- The volume once the native backend has received the given tasks. -/
def Volume.receive (self : Volume) (tasks : List SetRegionTask) : Volume :=
  self.withIE fun ie => { ie with setRegionTasks := ie.setRegionTasks ++ tasks }

/-- The volume as `createEquivalentISPC` leaves it when it returns: the members
`voxelType` and `dimensions` read from the parameters, and a new native object created
from them. -/
def Volume.created (env : Env) (self : Volume) : Volume :=
  { self with
    voxelType := getParamString self.params "voxelType" "unspecified"
    dimensions := getParam3i self.params "dimensions" (vec3i.splat 0)
    ispcEquivalent := some (ispc.GBBV_createInstance env
      (env.typeForString (getParamString self.params "voxelType" "unspecified"))
      (getParam3i self.params "dimensions" (vec3i.splat 0))) }

/-- A float volume whose "dimensions" parameter is (4,0,4). -/
def floatVolume404 : Volume :=
  { params := [("voxelType", ParamValue.string "float"),
               ("dimensions", ParamValue.int3 ⟨4, 0, 4⟩)],
    ispcEquivalent := none, voxelType := "", dimensions := vec3i.splat 0 }

/-- The specular colour held by the native binding after the parameter push. -/
def Volume.pushedSpecular (env : Env) (self : Volume) : Option vec3f :=
  match (self.updateEditableParameters env).2.ispcEquivalent with
  | some ie => ie.specular
  | none => none

/-- The shininess exponent held by the native binding after the parameter push. -/
def Volume.pushedNs (env : Env) (self : Volume) : Option F32 :=
  match (self.updateEditableParameters env).2.ispcEquivalent with
  | some ie => ie.ns
  | none => none

/-! ## Call sequences -/

/-- A call made on a volume by its owner. -/
inductive Op where
  | setParam (name : String) (value : ParamValue)
  | setRegion (source : Ptr) (regionCoords regionSize : vec3i)
  | commit
deriving DecidableEq, Repr

/-- The volume after one call (whether the call returned or threw), the base-class commit
being `StructuredVolume.commit`. -/
def Op.run (env : Env) (self : Volume) : Op → Volume
  | Op.setParam name value => self.setParam name value
  | Op.setRegion source regionCoords regionSize =>
    (GhostBlockBrickedVolume.setRegion env self source regionCoords regionSize).2
  | Op.commit => (GhostBlockBrickedVolume.commit (StructuredVolume.commit env) self).2

/-- The volume after a sequence of calls, first call first. -/
def runOps (env : Env) (self : Volume) (ops : List Op) : Volume :=
  ops.foldl (Op.run env) self

/-! ## The alias chains, as the spec words them -/

/-- The value of type `vec3f` stored under a name, if there is one. -/
def lookup3f (ps : ParameterStore) (name : String) : Option vec3f :=
  match findParam ps name with
  | some (ParamValue.float3 v) => some v
  | _ => none

/-- The value of type `float` stored under a name, if there is one. -/
def lookup1f (ps : ParameterStore) (name : String) : Option F32 :=
  match findParam ps name with
  | some (ParamValue.float1 v) => some v
  | _ => none

/-- An "explicit ordered list of aliases resolved at lookup time": the value of the first
alias of the list that is set, else the default. -/
def resolveAliases {α : Type} (lookup : String → Option α) (dflt : α) : List String → α
  | [] => dflt
  | name :: rest =>
    match lookup name with
    | some v => v
    | none => resolveAliases lookup dflt rest

/-! ## Concrete data for evaluation -/

/-- An environment to evaluate the embedding on concrete inputs: the usual voxel type
names, no upsampling (`scaleRegion` leaves its arguments as they are, as when no scale
factor is set), `rcp` only ever evaluated at the identity transformation (which is its own
inverse), and a fixed address for the native object. -/
def sampleEnv : Env where
  typeForString := fun s =>
    if s = "uchar" then OSPDataType.OSP_UCHAR
    else if s = "short" then OSPDataType.OSP_SHORT
    else if s = "float" then OSPDataType.OSP_FLOAT
    else if s = "double" then OSPDataType.OSP_DOUBLE
    else OSPDataType.OSP_UNKNOWN
  scaleRegion := fun _ _ out regionSize regionCoords => ⟨false, out, regionSize, regionCoords⟩
  rcp := fun xfm => xfm
  GBBV_createInstance := fun _ _ => 4096

/-- A volume as constructed: no parameter, no native binding, empty `voxelType`. -/
def freshVolume : Volume :=
  { params := [], ispcEquivalent := none, voxelType := "", dimensions := vec3i.splat 0 }

/-- A volume as constructed, then given "voxelType" = "float" and "dimensions" = (2,2,2). -/
def floatVolume222 : Volume :=
  (freshVolume.setParam "voxelType" (ParamValue.string "float")).setParam
    "dimensions" (ParamValue.int3 ⟨2, 2, 2⟩)

/-- The native object that `GBBV_createInstance` returns in `sampleEnv` for a float volume
of dimensions (2,2,2). -/
def nativeFloat222 : IspcVolume :=
  ispc.GBBV_createInstance sampleEnv OSPDataType.OSP_FLOAT ⟨2, 2, 2⟩

/-- A float volume of dimensions (2,2,2) whose native binding exists (its region has been
written) and which has no transfer function attached. -/
def boundVolume222 : Volume :=
  { floatVolume222 with
    ispcEquivalent := some nativeFloat222, voxelType := "float", dimensions := ⟨2, 2, 2⟩ }

/-- What `scaleRegion` hands back in the call `setRegion(source, regionCoords, regionSize)`
on this volume: the final source, origin and extent of the region write. The volume that
`scaleRegion` is called on is the one `createEquivalentISPC` has left when the binding had
to be created. -/
def GhostBlockBrickedVolume.finalRegion (env : Env) (self : Volume) (source : Ptr)
    (regionCoords regionSize : vec3i) : ScaledRegion :=
  env.scaleRegion (if self.ispcEquivalent = none then self.created env else self)
    source source regionSize regionCoords

/-- Some native queries to evaluate the embedding on concrete inputs: sample `i` is the
x coordinate of position `i`, the bounding box is the unit cube. -/
def sampleQueries : NativeQueries where
  Volume_computeSamples := fun _ worldCoordinates _ i =>
    (worldCoordinates.getD i (vec3f.splat F32.zero)).x
  Volume_getBoundingBox := fun _ => ⟨vec3f.splat F32.zero, vec3f.splat F32.one⟩

/-- A build with assertions compiled in, on a 64-bit platform whose `std::vector<float>`
holds at most 2^61 - 1 elements. -/
def sampleBuild : Build :=
  { NDEBUG := false, vector_max_size := 2305843009213693951 }

/-- The same platform, built with `NDEBUG`. -/
def releaseBuild : Build :=
  { NDEBUG := true, vector_max_size := 2305843009213693951 }

/-- Three positions to sample at. -/
def samplePositions : List vec3f :=
  [⟨F32.lit0_3, F32.zero, F32.zero⟩, ⟨F32.lit2, F32.zero, F32.one⟩,
   ⟨F32.lit15, F32.one, F32.zero⟩]

/-! ## `MPICommon.h` -/

namespace mpi

/-- A communicator as the MPI library holds it: the processes of its local group in rank
order (MPI defines the rank of a process as its position in the group) and, for a
communicator that connects to a remote group, the processes of that group. Processes are
named by numbers. -/
structure Communicator where
  localGroup : List Nat
  remoteGroup : Option (List Nat)
deriving DecidableEq, Repr

/-- The handle type `MPI_Comm`: a communicator, or the null handle. -/
abbrev MPI_Comm := Option Communicator

/-- The null handle `MPI_COMM_NULL`. -/
def MPI_COMM_NULL : MPI_Comm := none

/-- The MPI library as the calling process meets it: which process is calling, the two
constants of `mpi.h` that the header uses (their values are implementation-defined), and
the status that the channel reports for a barrier on a communicator, which may differ from
one call to the next (second argument: how many barrier calls the process made before). -/
structure MPI where
  me : Nat
  MPI_SUCCESS : Int
  MPI_ROOT : Int
  MPI_Barrier : MPI_Comm → Nat → Int

/-- Library call `MPI_Comm_rank(comm, &rank)`: the value written to `rank`, the position
of the calling process in the local group. An erroneous call (null handle, or a caller
outside the group) writes nothing. -/
def MPI_Comm_rank (mpi : MPI) (comm : MPI_Comm) : Option Int :=
  match comm with
  | none => none
  | some c =>
    if mpi.me ∈ c.localGroup then some (Int.ofNat (c.localGroup.indexOf mpi.me)) else none

/-- Library call `MPI_Comm_size(comm, &size)`: the value written to `size`, the number of
processes of the local group. An erroneous call (null handle) writes nothing. -/
def MPI_Comm_size (comm : MPI_Comm) : Option Int :=
  match comm with
  | none => none
  | some c => some (Int.ofNat c.localGroup.length)

/-- Library call `MPI_Comm_remote_size(comm, &size)`: the value written to `size`, the
number of processes of the remote group. An erroneous call (null handle, or a communicator
without remote group) writes nothing. -/
def MPI_Comm_remote_size (comm : MPI_Comm) : Option Int :=
  match comm with
  | none => none
  | some c =>
    match c.remoteGroup with
    | none => none
    | some remote => some (Int.ofNat remote.length)

/-- The macro `MPI_CALL(a)` (line 30), applied to the status `rc` of the call `MPI_a`: the
error thrown, if any. -/
def MPI_CALL (mpi : MPI) (rc : Int) : Option Error :=
  if rc ≠ mpi.MPI_SUCCESS then some Error.NativeBackendFailure else none

/-- The fields of `struct Group` (lines 39-51). -/
structure Group where
  containsMe : Bool
  comm : MPI_Comm
  rank : Int
  size : Int
deriving DecidableEq, Repr

/-- Constructor `Group()` (line 53). -/
def Group.new : Group :=
  { size := -1, rank := -1, comm := MPI_COMM_NULL, containsMe := false }

/-- Method `Group::makeIntercomm()` (lines 54-55): the initialisation of a group that the
calling process is a member of (the spec's `initAsIntra`). The statuses of the two library
calls are not looked at. -/
def Group.makeIntercomm (mpi : MPI) (self : Group) : Group :=
  let self := { self with rank := (MPI_Comm_rank mpi self.comm).getD self.rank }
  let self := { self with size := (MPI_Comm_size self.comm).getD self.size }
  { self with containsMe := true }

/-- Method `Group::makeIntracomm()` (lines 56-57): the initialisation of a group that the
calling process is not a member of (the spec's `initAsInter`). The status of the library
call is not looked at. -/
def Group.makeIntracomm (mpi : MPI) (self : Group) : Group :=
  let self := { self with containsMe := false }
  let self := { self with rank := mpi.MPI_ROOT }
  { self with size := (MPI_Comm_remote_size self.comm).getD self.size }

/-- Method `Group::barrier()` (line 60). Besides the group, the run carries the list of
the barrier calls that the process has made on the channel so far, oldest first. -/
def Group.barrier (mpi : MPI) (self : Group) (barrierCalls : List MPI_Comm) :
    Outcome Unit × Group × List MPI_Comm :=
  let rc := mpi.MPI_Barrier self.comm barrierCalls.length
  let barrierCalls := barrierCalls ++ [self.comm]
  match MPI_CALL mpi rc with
  | some e => (Outcome.threw e, self, barrierCalls)
  | none => (Outcome.returned (), self, barrierCalls)

/-- A communicator to evaluate on: three local processes 10, 11, 12 and two remote
processes 20, 21. -/
def sampleComm : Communicator :=
  { localGroup := [10, 11, 12], remoteGroup := some [20, 21] }

/-- The library as process 11 meets it; barriers succeed on every communicator but the
null handle. The values of the constants are those of one implementation. -/
def sampleMPI : MPI :=
  { me := 11, MPI_SUCCESS := 0, MPI_ROOT := -3,
    MPI_Barrier := fun comm _ => if comm = MPI_COMM_NULL then 5 else 0 }

/-- The library as process 12 meets it. -/
def sampleMPI12 : MPI :=
  { sampleMPI with me := 12 }

/-- A group as constructed whose communicator has then been filled in by the setup
routine. -/
def sampleGroup : Group :=
  { Group.new with comm := some sampleComm }

end mpi

/-! ## Basic facts about the parameter store -/

theorem findParam_setParam (ps : ParameterStore) (name : String) (t : ParamValue)
    (other : String) :
    findParam (setParam ps name t) other = if other = name then some t else findParam ps other := by
  induction ps with
  | nil =>
    by_cases h : other = name
    · simp [setParam, findParam, h]
    · have h2 : ¬ name = other := fun e => h e.symm
      simp [setParam, findParam, h, h2]
  | cons hd tl ih =>
    obtain ⟨n, old⟩ := hd
    by_cases hn : n = name
    · by_cases h : other = name
      · simp [setParam, findParam, hn, h]
      · have h2 : ¬ name = other := fun e => h e.symm
        simp [setParam, findParam, hn, h, h2]
    · by_cases h : other = name
      · subst h
        simp [setParam, findParam, hn]
        simpa using ih
      · by_cases h4 : n = other
        · simp [setParam, findParam, hn, h4, h]
        · simp [setParam, findParam, hn, h4, ih, h]

theorem reduce_min_le_zero_iff (v : vec3i) :
    reduce_min v ≤ 0 ↔ (v.x ≤ 0 ∨ v.y ≤ 0 ∨ v.z ≤ 0) := by
  unfold reduce_min
  omega

/-! ## Facts about `createEquivalentISPC` -/

namespace GhostBlockBrickedVolume

theorem createEquivalentISPC_unknown (env : Env) (self : Volume)
    (ht : env.typeForString (getParamString self.params "voxelType" "unspecified")
      = OSPDataType.OSP_UNKNOWN) :
    createEquivalentISPC env self =
      (Outcome.threw Error.UnrecognizedType,
        { self with voxelType := getParamString self.params "voxelType" "unspecified" }) := by
  simp [createEquivalentISPC, Volume.getVoxelType, ht]

theorem createEquivalentISPC_badDims (env : Env) (self : Volume)
    (ht : env.typeForString (getParamString self.params "voxelType" "unspecified")
      ≠ OSPDataType.OSP_UNKNOWN)
    (hd : reduce_min (getParam3i self.params "dimensions" (vec3i.splat 0)) ≤ 0) :
    createEquivalentISPC env self =
      (Outcome.threw Error.InvalidDimensions,
        { self with
          voxelType := getParamString self.params "voxelType" "unspecified"
          dimensions := getParam3i self.params "dimensions" (vec3i.splat 0) }) := by
  simp [createEquivalentISPC, Volume.getVoxelType, ht, hd]

theorem createEquivalentISPC_ok (env : Env) (self : Volume)
    (ht : env.typeForString (getParamString self.params "voxelType" "unspecified")
      ≠ OSPDataType.OSP_UNKNOWN)
    (hd : ¬ reduce_min (getParam3i self.params "dimensions" (vec3i.splat 0)) ≤ 0) :
    createEquivalentISPC env self =
      (Outcome.returned (),
        { self with
          voxelType := getParamString self.params "voxelType" "unspecified"
          dimensions := getParam3i self.params "dimensions" (vec3i.splat 0)
          ispcEquivalent := some (ispc.GBBV_createInstance env
            (env.typeForString (getParamString self.params "voxelType" "unspecified"))
            (getParam3i self.params "dimensions" (vec3i.splat 0))) }) := by
  simp [createEquivalentISPC, Volume.getVoxelType, ht, hd]

/-! ## Facts about the scatter-copy and `setRegion` -/

theorem receive_nil (self : Volume) : self.receive [] = self := by
  cases self with
  | mk params ie voxelType dimensions =>
    cases ie <;> simp [Volume.receive, Volume.withIE]

theorem foldl_scatter (source : Ptr) (coords size : vec3i) (l : List Nat) (self : Volume) :
    l.foldl (fun (acc : Volume) i =>
        acc.withIE fun ie => ispc.GBBV_setRegion ie source coords size (Int.ofNat i)) self
      = self.receive (l.map fun i => ⟨source, coords, size, Int.ofNat i⟩) := by
  induction l generalizing self with
  | nil => simpa using (receive_nil self).symm
  | cons i l ih =>
    rw [List.foldl_cons, ih]
    cases self with
    | mk params ie voxelType dimensions =>
      cases ie <;> simp [Volume.receive, Volume.withIE, ispc.GBBV_setRegion]

theorem parallel_for_scatter (n : Int) (source : Ptr) (coords size : vec3i) (self : Volume) :
    parallel_for n (fun taskIndex (v : Volume) =>
        v.withIE fun ie => ispc.GBBV_setRegion ie source coords size taskIndex) self
      = self.receive (scatterTasks source coords size n) := by
  unfold parallel_for scatterTasks
  exact foldl_scatter source coords size (List.range n.toNat) self

theorem setRegion_bound_null (env : Env) (self : Volume) (coords size : vec3i)
    (hb : self.ispcEquivalent ≠ none) :
    setRegion env self nullptr coords size = (Outcome.threw Error.InvalidArgument, self) := by
  simp [setRegion, hb, Assert2]

theorem setRegion_bound_ok (env : Env) (self : Volume) (source : Ptr) (coords size : vec3i)
    (hb : self.ispcEquivalent ≠ none) (hs : source ≠ nullptr) :
    setRegion env self source coords size =
      (Outcome.returned 1,
        self.receive (scatterTasks (env.scaleRegion self source source size coords).out
          (env.scaleRegion self source source size coords).regionCoords
          (env.scaleRegion self source source size coords).regionSize
          (int_mul (env.scaleRegion self source source size coords).regionSize.y
            (env.scaleRegion self source source size coords).regionSize.z))) := by
  simp [setRegion, hb, hs, Assert2, parallel_for_scatter]

theorem setRegion_unbound (env : Env) (self : Volume) (source : Ptr)
    (coords size : vec3i) (hb : self.ispcEquivalent = none) :
    setRegion env self source coords size =
      match createEquivalentISPC env self with
      | (Outcome.threw e, after) => (Outcome.threw e, after)
      | (Outcome.returned _, after) =>
        if source = nullptr then (Outcome.threw Error.InvalidArgument, after)
        else (Outcome.returned 1,
          after.receive (scatterTasks (env.scaleRegion after source source size coords).out
            (env.scaleRegion after source source size coords).regionCoords
            (env.scaleRegion after source source size coords).regionSize
            (int_mul (env.scaleRegion after source source size coords).regionSize.y
              (env.scaleRegion after source source size coords).regionSize.z))) := by
  simp only [setRegion, hb, if_true]
  rcases hc : createEquivalentISPC env self with ⟨o, after⟩
  cases o with
  | threw e => simp
  | returned u =>
    by_cases hs : source = nullptr
    · simp [hs, Assert2]
    · simp [hs, Assert2, parallel_for_scatter]

theorem setRegion_unknown (env : Env) (self : Volume) (source : Ptr) (coords size : vec3i)
    (hb : self.ispcEquivalent = none)
    (ht : env.typeForString (getParamString self.params "voxelType" "unspecified")
      = OSPDataType.OSP_UNKNOWN) :
    setRegion env self source coords size =
      (Outcome.threw Error.UnrecognizedType,
        { self with voxelType := getParamString self.params "voxelType" "unspecified" }) := by
  rw [setRegion_unbound env self source coords size hb,
    createEquivalentISPC_unknown env self ht]

theorem setRegion_badDims (env : Env) (self : Volume) (source : Ptr) (coords size : vec3i)
    (hb : self.ispcEquivalent = none)
    (ht : env.typeForString (getParamString self.params "voxelType" "unspecified")
      ≠ OSPDataType.OSP_UNKNOWN)
    (hd : reduce_min (getParam3i self.params "dimensions" (vec3i.splat 0)) ≤ 0) :
    setRegion env self source coords size =
      (Outcome.threw Error.InvalidDimensions,
        { self with
          voxelType := getParamString self.params "voxelType" "unspecified"
          dimensions := getParam3i self.params "dimensions" (vec3i.splat 0) }) := by
  rw [setRegion_unbound env self source coords size hb,
    createEquivalentISPC_badDims env self ht hd]

theorem receive_params (self : Volume) (tasks : List SetRegionTask) :
    (self.receive tasks).params = self.params := rfl

theorem receive_voxelType (self : Volume) (tasks : List SetRegionTask) :
    (self.receive tasks).voxelType = self.voxelType := rfl

theorem receive_dimensions (self : Volume) (tasks : List SetRegionTask) :
    (self.receive tasks).dimensions = self.dimensions := rfl

theorem receive_some (self : Volume) (tasks : List SetRegionTask) (ie : IspcVolume)
    (hb : self.ispcEquivalent = some ie) :
    (self.receive tasks).ispcEquivalent =
      some { ie with setRegionTasks := ie.setRegionTasks ++ tasks } := by
  simp [Volume.receive, Volume.withIE, hb]

theorem setRegion_created (env : Env) (self : Volume) (source : Ptr) (coords size : vec3i)
    (hb : self.ispcEquivalent = none)
    (ht : env.typeForString (getParamString self.params "voxelType" "unspecified")
      ≠ OSPDataType.OSP_UNKNOWN)
    (hd : ¬ reduce_min (getParam3i self.params "dimensions" (vec3i.splat 0)) ≤ 0) :
    setRegion env self source coords size =
      if source = nullptr then (Outcome.threw Error.InvalidArgument, self.created env)
      else
        (Outcome.returned 1,
          (self.created env).receive
            (scatterTasks
              (env.scaleRegion (self.created env) source source size coords).out
              (env.scaleRegion (self.created env) source source size coords).regionCoords
              (env.scaleRegion (self.created env) source source size coords).regionSize
              (int_mul (env.scaleRegion (self.created env) source source size coords).regionSize.y
               (env.scaleRegion (self.created env) source source size coords).regionSize.z)))
      := by
  rw [setRegion_unbound env self source coords size hb,
    createEquivalentISPC_ok env self ht hd]
  rfl

end GhostBlockBrickedVolume

/-! ## Facts about `updateEditableParameters` -/

theorem updateEditableParameters_threw (env : Env) (self : Volume)
    (h : getParamObject self.params "transferFunction" none = none) :
    self.updateEditableParameters env =
      (Outcome.threw Error.MissingDependency,
        self.withIE fun ie =>
          { ie with
            gradientShadingEnabled := some (getParam1i self.params "gradientShadingEnabled" 0)
            preIntegration := some (getParam1i self.params "preIntegration" 0)
            singleShade := some (getParam1i self.params "singleShade" 1)
            adaptiveSampling := some (getParam1i self.params "adaptiveSampling" 1)
            adaptiveScalar := some (getParam1f self.params "adaptiveScalar" F32.lit15)
            adaptiveMaxSamplingRate :=
              some (getParam1f self.params "adaptiveMaxSamplingRate" F32.lit2)
            adaptiveBacktrack := some (getParam1f self.params "adaptiveBacktrack" F32.lit0_03)
            samplingRate := some (getParam1f self.params "samplingRate" F32.lit0_125)
            specular := some (getParam3f self.params "specular"
              (getParam3f self.params "ks"
                (getParam3f self.params "Ks" (vec3f.splat F32.lit0_3))))
            ns := some (getParam1f self.params "ns" (getParam1f self.params "Ns" F32.lit20)) })
      := by
  cases self with
  | mk params ie voxelType dimensions =>
    simp only at h
    cases ie <;>
      simp [Volume.updateEditableParameters, Volume.withIE, h,
        ispc.Volume_setGradientShadingEnabled, ispc.Volume_setPreIntegration,
        ispc.Volume_setSingleShade, ispc.Volume_setAdaptiveSampling,
        ispc.Volume_setAdaptiveScalar, ispc.Volume_setAdaptiveMaxSamplingRate,
        ispc.Volume_setAdaptiveBacktrack, ispc.Volume_setSamplingRate,
        ispc.Volume_setSpecular, ispc.Volume_setNs]

theorem updateEditableParameters_returned (env : Env) (self : Volume) (tf : ManagedObject)
    (h : getParamObject self.params "transferFunction" none = some tf) :
    self.updateEditableParameters env =
      (Outcome.returned (),
        self.withIE fun ie =>
          { ie with
            gradientShadingEnabled := some (getParam1i self.params "gradientShadingEnabled" 0)
            preIntegration := some (getParam1i self.params "preIntegration" 0)
            singleShade := some (getParam1i self.params "singleShade" 1)
            adaptiveSampling := some (getParam1i self.params "adaptiveSampling" 1)
            adaptiveScalar := some (getParam1f self.params "adaptiveScalar" F32.lit15)
            adaptiveMaxSamplingRate :=
              some (getParam1f self.params "adaptiveMaxSamplingRate" F32.lit2)
            adaptiveBacktrack := some (getParam1f self.params "adaptiveBacktrack" F32.lit0_03)
            samplingRate := some (getParam1f self.params "samplingRate" F32.lit0_125)
            specular := some (getParam3f self.params "specular"
              (getParam3f self.params "ks"
                (getParam3f self.params "Ks" (vec3f.splat F32.lit0_3))))
            ns := some (getParam1f self.params "ns" (getParam1f self.params "Ns" F32.lit20))
            transferFunction := some tf.getIE
            volumeClippingBox := some
              ⟨getParam3f self.params "volumeClippingBoxLower" (vec3f.splat F32.zero),
               getParam3f self.params "volumeClippingBoxUpper" (vec3f.splat F32.zero)⟩
            xfm := some
              { l := { vx := getParam3f self.params "xfm.l.vx" ⟨F32.one, F32.zero, F32.zero⟩
                       vy := getParam3f self.params "xfm.l.vy" ⟨F32.zero, F32.one, F32.zero⟩
                       vz := getParam3f self.params "xfm.l.vz" ⟨F32.zero, F32.zero, F32.one⟩ }
                p := getParam3f self.params "xfm.p" ⟨F32.zero, F32.zero, F32.zero⟩ }
            rcp_xfm := some (env.rcp
              { l := { vx := getParam3f self.params "xfm.l.vx" ⟨F32.one, F32.zero, F32.zero⟩
                       vy := getParam3f self.params "xfm.l.vy" ⟨F32.zero, F32.one, F32.zero⟩
                       vz := getParam3f self.params "xfm.l.vz" ⟨F32.zero, F32.zero, F32.one⟩ }
                p := getParam3f self.params "xfm.p" ⟨F32.zero, F32.zero, F32.zero⟩ }) })
      := by
  cases self with
  | mk params ie voxelType dimensions =>
    simp only at h
    cases ie <;>
      simp [Volume.updateEditableParameters, Volume.withIE, h,
        ispc.Volume_setGradientShadingEnabled, ispc.Volume_setPreIntegration,
        ispc.Volume_setSingleShade, ispc.Volume_setAdaptiveSampling,
        ispc.Volume_setAdaptiveScalar, ispc.Volume_setAdaptiveMaxSamplingRate,
        ispc.Volume_setAdaptiveBacktrack, ispc.Volume_setSamplingRate,
        ispc.Volume_setSpecular, ispc.Volume_setNs, ispc.Volume_setTransferFunction,
        ispc.Volume_setVolumeClippingBox, ispc.Volume_setAffineTransformations]

theorem updateEditableParameters_threw_iff (env : Env) (self : Volume) (e : Error) :
    (self.updateEditableParameters env).1 = Outcome.threw e ↔
      (e = Error.MissingDependency ∧
        getParamObject self.params "transferFunction" none = none) := by
  cases h : getParamObject self.params "transferFunction" none with
  | none =>
    rw [updateEditableParameters_threw env self h]
    constructor
    · intro h1
      simp at h1
      exact ⟨h1.symm, rfl⟩
    · rintro ⟨h1, _⟩
      rw [h1]
  | some tf =>
    rw [updateEditableParameters_returned env self tf h]
    simp

theorem getParam3f_eq_lookup (ps : ParameterStore) (name : String) (dflt : vec3f) :
    getParam3f ps name dflt = (lookup3f ps name).getD dflt := by
  unfold getParam3f lookup3f
  split <;> simp_all

theorem getParam1f_eq_lookup (ps : ParameterStore) (name : String) (dflt : F32) :
    getParam1f ps name dflt = (lookup1f ps name).getD dflt := by
  unfold getParam1f lookup1f
  split <;> simp_all

theorem lookup3f_setParam (ps : ParameterStore) (name other : String) (t : ParamValue) :
    lookup3f (setParam ps name t) other =
      if other = name then (match t with | ParamValue.float3 v => some v | _ => none)
      else lookup3f ps other := by
  unfold lookup3f
  rw [findParam_setParam]
  by_cases h : other = name
  · simp only [h, if_true]
    cases t <;> rfl
  · simp [h]

theorem lookup1f_setParam (ps : ParameterStore) (name other : String) (t : ParamValue) :
    lookup1f (setParam ps name t) other =
      if other = name then (match t with | ParamValue.float1 v => some v | _ => none)
      else lookup1f ps other := by
  unfold lookup1f
  rw [findParam_setParam]
  by_cases h : other = name
  · simp only [h, if_true]
    cases t <;> rfl
  · simp [h]

theorem specular_chain_eq (ps : ParameterStore) :
    getParam3f ps "specular" (getParam3f ps "ks" (getParam3f ps "Ks" (vec3f.splat F32.lit0_3)))
      = resolveAliases (lookup3f ps) (vec3f.splat F32.lit0_3) ["specular", "ks", "Ks"] := by
  simp only [getParam3f_eq_lookup, resolveAliases]
  cases lookup3f ps "specular" <;> cases lookup3f ps "ks" <;> cases lookup3f ps "Ks" <;> rfl

theorem ns_chain_eq (ps : ParameterStore) :
    getParam1f ps "ns" (getParam1f ps "Ns" F32.lit20)
      = resolveAliases (lookup1f ps) F32.lit20 ["ns", "Ns"] := by
  simp only [getParam1f_eq_lookup, resolveAliases]
  cases lookup1f ps "ns" <;> cases lookup1f ps "Ns" <;> rfl

theorem pushedSpecular_eq (env : Env) (self : Volume) (ie : IspcVolume)
    (hb : self.ispcEquivalent = some ie) :
    self.pushedSpecular env = some (getParam3f self.params "specular"
      (getParam3f self.params "ks" (getParam3f self.params "Ks" (vec3f.splat F32.lit0_3)))) := by
  unfold Volume.pushedSpecular
  cases h : getParamObject self.params "transferFunction" none with
  | none => simp [updateEditableParameters_threw env self h, Volume.withIE, hb]
  | some tf => simp [updateEditableParameters_returned env self tf h, Volume.withIE, hb]

theorem pushedNs_eq (env : Env) (self : Volume) (ie : IspcVolume)
    (hb : self.ispcEquivalent = some ie) :
    self.pushedNs env
      = some (getParam1f self.params "ns" (getParam1f self.params "Ns" F32.lit20)) := by
  unfold Volume.pushedNs
  cases h : getParamObject self.params "transferFunction" none with
  | none => simp [updateEditableParameters_threw env self h, Volume.withIE, hb]
  | some tf => simp [updateEditableParameters_returned env self tf h, Volume.withIE, hb]

namespace GhostBlockBrickedVolume

/-! ## The claims -/

/-- C1: `commit()` on a volume whose native binding is absent fails with PrecommitRequired
and hands the volume back as it was, the binding still absent; the result is the same
whatever the base-class commit would do, so the base-class commit is not run. -/
theorem C1_commit_without_binding (base : Volume → Outcome Unit × Volume) (self : Volume)
    (hb : self.ispcEquivalent = none) :
    commit base self = (Outcome.threw Error.PrecommitRequired, self) ∧
      (commit base self).2.ispcEquivalent = none := by
  simp [commit, hb]

theorem C1_commit_without_binding_witness :
    freshVolume.ispcEquivalent = none ∧
      (commit (StructuredVolume.commit sampleEnv) freshVolume
          = (Outcome.threw Error.PrecommitRequired, freshVolume) ∧
        (commit (StructuredVolume.commit sampleEnv) freshVolume).2.ispcEquivalent = none) :=
  ⟨rfl, C1_commit_without_binding (StructuredVolume.commit sampleEnv) freshVolume rfl⟩

/-- C2: on a volume without native binding whose "voxelType" parameter is absent (so that
the default "unspecified" is resolved) or names no known voxel type, `setRegion` fails with
UnrecognizedType whatever the "dimensions" parameter, the source and the region are; the
parameter store is untouched and the binding is still absent afterwards, and a second call,
with any arguments, fails with UnrecognizedType again and changes nothing further. -/
theorem C2_unrecognized_type (env : Env) (self : Volume) (source source2 : Ptr)
    (coords size coords2 size2 : vec3i)
    (hb : self.ispcEquivalent = none)
    (ht : env.typeForString (getParamString self.params "voxelType" "unspecified")
      = OSPDataType.OSP_UNKNOWN) :
    (setRegion env self source coords size).1 = Outcome.threw Error.UnrecognizedType ∧
    (setRegion env self source coords size).2.ispcEquivalent = none ∧
    (setRegion env self source coords size).2.params = self.params ∧
    setRegion env (setRegion env self source coords size).2 source2 coords2 size2
      = (Outcome.threw Error.UnrecognizedType, (setRegion env self source coords size).2) := by
  have h1 := setRegion_unknown env self source coords size hb ht
  have h2 := setRegion_unknown env
    { self with voxelType := getParamString self.params "voxelType" "unspecified" }
    source2 coords2 size2 hb ht
  rw [h1]
  exact ⟨rfl, hb, rfl, h2⟩

theorem C2_unrecognized_type_witness :
    (setRegion sampleEnv freshVolume 77 ⟨0, 0, 0⟩ ⟨2, 2, 2⟩).1
        = Outcome.threw Error.UnrecognizedType ∧
    (setRegion sampleEnv freshVolume 77 ⟨0, 0, 0⟩ ⟨2, 2, 2⟩).2.ispcEquivalent = none ∧
    (setRegion sampleEnv freshVolume 77 ⟨0, 0, 0⟩ ⟨2, 2, 2⟩).2.params = freshVolume.params ∧
    setRegion sampleEnv (setRegion sampleEnv freshVolume 77 ⟨0, 0, 0⟩ ⟨2, 2, 2⟩).2
        78 ⟨1, 1, 1⟩ ⟨1, 1, 1⟩
      = (Outcome.threw Error.UnrecognizedType,
          (setRegion sampleEnv freshVolume 77 ⟨0, 0, 0⟩ ⟨2, 2, 2⟩).2) :=
  C2_unrecognized_type sampleEnv freshVolume 77 78 ⟨0, 0, 0⟩ ⟨2, 2, 2⟩ ⟨1, 1, 1⟩ ⟨1, 1, 1⟩
    rfl (by decide)

/-- C3: on a volume without native binding whose voxel type resolves to a known type,
`setRegion` fails with InvalidDimensions if and only if some axis of the "dimensions"
parameter (default (0,0,0)) is ≤ 0, and then no native binding is created; when the three
axes are > 0 the call leaves a native binding created with exactly those dimensions and
that voxel type. -/
theorem C3_invalid_dimensions (env : Env) (self : Volume) (source : Ptr)
    (coords size : vec3i)
    (hb : self.ispcEquivalent = none)
    (ht : env.typeForString (getParamString self.params "voxelType" "unspecified")
      ≠ OSPDataType.OSP_UNKNOWN) :
    ((setRegion env self source coords size).1 = Outcome.threw Error.InvalidDimensions ↔
      ((getParam3i self.params "dimensions" ⟨0, 0, 0⟩).x ≤ 0 ∨
       (getParam3i self.params "dimensions" ⟨0, 0, 0⟩).y ≤ 0 ∨
       (getParam3i self.params "dimensions" ⟨0, 0, 0⟩).z ≤ 0)) ∧
    (((getParam3i self.params "dimensions" ⟨0, 0, 0⟩).x ≤ 0 ∨
       (getParam3i self.params "dimensions" ⟨0, 0, 0⟩).y ≤ 0 ∨
       (getParam3i self.params "dimensions" ⟨0, 0, 0⟩).z ≤ 0) →
      (setRegion env self source coords size).2.ispcEquivalent = none) ∧
    ((0 < (getParam3i self.params "dimensions" ⟨0, 0, 0⟩).x ∧
       0 < (getParam3i self.params "dimensions" ⟨0, 0, 0⟩).y ∧
       0 < (getParam3i self.params "dimensions" ⟨0, 0, 0⟩).z) →
      ∃ ie, (setRegion env self source coords size).2.ispcEquivalent = some ie ∧
        ie.dimensions = getParam3i self.params "dimensions" ⟨0, 0, 0⟩ ∧
        ie.voxelType
          = env.typeForString (getParamString self.params "voxelType" "unspecified")) := by
  have hsplat : vec3i.splat 0 = ⟨0, 0, 0⟩ := rfl
  by_cases hd : reduce_min (getParam3i self.params "dimensions" (vec3i.splat 0)) ≤ 0
  · have h1 := setRegion_unbound env self source coords size hb
    rw [createEquivalentISPC_badDims env self ht hd] at h1
    have hax := (reduce_min_le_zero_iff _).1 hd
    rw [hsplat] at hax
    rw [h1]
    refine ⟨⟨fun _ => hax, fun _ => rfl⟩, fun _ => hb, ?_⟩
    rintro ⟨hx, hy, hz⟩
    omega
  · have h1 := setRegion_unbound env self source coords size hb
    rw [createEquivalentISPC_ok env self ht hd] at h1
    have hax : ¬ ((getParam3i self.params "dimensions" ⟨0, 0, 0⟩).x ≤ 0 ∨
       (getParam3i self.params "dimensions" ⟨0, 0, 0⟩).y ≤ 0 ∨
       (getParam3i self.params "dimensions" ⟨0, 0, 0⟩).z ≤ 0) := by
      intro h
      exact hd ((reduce_min_le_zero_iff _).2 (hsplat ▸ h))
    rw [h1]
    by_cases hs : source = nullptr
    · simp only [hs, if_true]
      refine ⟨⟨fun h => ?_, fun h => absurd h hax⟩, fun h => absurd h hax, fun _ => ?_⟩
      · simp at h
      · exact ⟨_, rfl, rfl, rfl⟩
    · simp only [hs, if_false]
      refine ⟨⟨fun h => ?_, fun h => absurd h hax⟩, fun h => absurd h hax, fun _ => ?_⟩
      · simp at h
      · exact ⟨_, receive_some _ _ _ rfl, rfl, rfl⟩

theorem C3_invalid_dimensions_witness :
    ∃ ie, (setRegion sampleEnv floatVolume222 77 ⟨0, 0, 0⟩ ⟨2, 2, 2⟩).2.ispcEquivalent = some ie ∧
      ie.dimensions = ⟨2, 2, 2⟩ ∧ ie.voxelType = OSPDataType.OSP_FLOAT :=
  (C3_invalid_dimensions sampleEnv floatVolume222 77 ⟨0, 0, 0⟩ ⟨2, 2, 2⟩ rfl (by decide)).2.2
    (by decide)

/-- C4, as stated, fails: a failing call is not rolled back. (1) `setRegion` failing with
UnrecognizedType has overwritten the member `voxelType`; (2) failing with InvalidDimensions
it has also overwritten the member `dimensions`; (3) failing on a null source it has
already created the native binding; (4) the parameter push failing with MissingDependency
has already changed the state of the native binding. -/
theorem C4_counterexample :
    ((setRegion sampleEnv freshVolume 77 ⟨0, 0, 0⟩ ⟨2, 2, 2⟩).1
        = Outcome.threw Error.UnrecognizedType ∧
      (setRegion sampleEnv freshVolume 77 ⟨0, 0, 0⟩ ⟨2, 2, 2⟩).2.voxelType
        ≠ freshVolume.voxelType) ∧
    ((setRegion sampleEnv floatVolume404 77 ⟨0, 0, 0⟩ ⟨2, 2, 2⟩).1
        = Outcome.threw Error.InvalidDimensions ∧
      (setRegion sampleEnv floatVolume404 77 ⟨0, 0, 0⟩ ⟨2, 2, 2⟩).2.dimensions
        ≠ floatVolume404.dimensions) ∧
    ((setRegion sampleEnv floatVolume222 nullptr ⟨0, 0, 0⟩ ⟨2, 2, 2⟩).1
        = Outcome.threw Error.InvalidArgument ∧
      floatVolume222.ispcEquivalent = none ∧
      (setRegion sampleEnv floatVolume222 nullptr ⟨0, 0, 0⟩ ⟨2, 2, 2⟩).2.ispcEquivalent
        ≠ none) ∧
    ((boundVolume222.updateEditableParameters sampleEnv).1
        = Outcome.threw Error.MissingDependency ∧
      (boundVolume222.updateEditableParameters sampleEnv).2.ispcEquivalent
        ≠ boundVolume222.ispcEquivalent) := by
  decide

/-- C4 (amended): a failing `setRegion` or parameter push leaves the parameter store as it
was and submits no scatter-copy task, and beyond that changes only the following.
`setRegion` fails only with UnrecognizedType, InvalidDimensions or InvalidArgument: with
UnrecognizedType the binding was and stays absent and only the member `voxelType` has been
overwritten by the "voxelType" parameter (default "unspecified"); with InvalidDimensions
the binding was and stays absent and only the members `voxelType` and `dimensions` have
been overwritten by their parameters; with InvalidArgument the source is null and the
volume is unchanged if its binding existed, and otherwise is the volume with its binding
newly created. The parameter push (`updateEditableParameters`) fails only with
MissingDependency, and then the members `voxelType` and `dimensions` are unchanged and so
are the binding's handle, creation arguments, transfer function, clipping box, transform
and inverse transform; only the values pushed before the transfer function is looked up
can differ. -/
theorem C4_failure_state (env : Env) (self : Volume) (source : Ptr) (coords size : vec3i)
    (e : Error) :
    ((setRegion env self source coords size).1 = Outcome.threw e →
      (setRegion env self source coords size).2.params = self.params ∧
      (setRegion env self source coords size).2.submittedTasks = self.submittedTasks ∧
      ((e = Error.UnrecognizedType ∧ self.ispcEquivalent = none ∧
          (setRegion env self source coords size).2 =
            { self with voxelType := getParamString self.params "voxelType" "unspecified" }) ∨
       (e = Error.InvalidDimensions ∧ self.ispcEquivalent = none ∧
          (setRegion env self source coords size).2 =
            { self with
              voxelType := getParamString self.params "voxelType" "unspecified"
              dimensions := getParam3i self.params "dimensions" ⟨0, 0, 0⟩ }) ∨
       (e = Error.InvalidArgument ∧ source = nullptr ∧ self.ispcEquivalent ≠ none ∧
          (setRegion env self source coords size).2 = self) ∨
       (e = Error.InvalidArgument ∧ source = nullptr ∧ self.ispcEquivalent = none ∧
          (setRegion env self source coords size).2 = self.created env))) ∧
    ((self.updateEditableParameters env).1 = Outcome.threw e →
      e = Error.MissingDependency ∧
      (self.updateEditableParameters env).2.params = self.params ∧
      (self.updateEditableParameters env).2.voxelType = self.voxelType ∧
      (self.updateEditableParameters env).2.dimensions = self.dimensions ∧
      (self.updateEditableParameters env).2.submittedTasks = self.submittedTasks ∧
      ∀ ie, self.ispcEquivalent = some ie →
        ∃ ie2, (self.updateEditableParameters env).2.ispcEquivalent = some ie2 ∧
          ie2.handle = ie.handle ∧ ie2.voxelType = ie.voxelType ∧
          ie2.dimensions = ie.dimensions ∧ ie2.transferFunction = ie.transferFunction ∧
          ie2.volumeClippingBox = ie.volumeClippingBox ∧ ie2.xfm = ie.xfm ∧
          ie2.rcp_xfm = ie.rcp_xfm) := by
  constructor
  · intro hfail
    by_cases hb : self.ispcEquivalent = none
    · by_cases ht : env.typeForString (getParamString self.params "voxelType" "unspecified")
          = OSPDataType.OSP_UNKNOWN
      · rw [setRegion_unknown env self source coords size hb ht] at hfail ⊢
        simp only [Outcome.threw.injEq] at hfail
        refine ⟨rfl, ?_, Or.inl ⟨hfail.symm, hb, rfl⟩⟩
        simp [Volume.submittedTasks, hb]
      · by_cases hd : reduce_min (getParam3i self.params "dimensions" (vec3i.splat 0)) ≤ 0
        · rw [setRegion_badDims env self source coords size hb ht hd] at hfail ⊢
          simp only [Outcome.threw.injEq] at hfail
          refine ⟨rfl, ?_, Or.inr (Or.inl ⟨hfail.symm, hb, rfl⟩)⟩
          simp [Volume.submittedTasks, hb]
        · rw [setRegion_created env self source coords size hb ht hd] at hfail ⊢
          by_cases hs : source = nullptr
          · subst hs
            rw [if_pos rfl] at hfail ⊢
            simp only [Outcome.threw.injEq] at hfail
            refine ⟨rfl, ?_, Or.inr (Or.inr (Or.inr ⟨hfail.symm, rfl, hb, rfl⟩))⟩
            simp [Volume.submittedTasks, hb, Volume.created, ispc.GBBV_createInstance]
          · simp [hs] at hfail
    · by_cases hs : source = nullptr
      · subst hs
        rw [setRegion_bound_null env self coords size hb] at hfail ⊢
        simp only [Outcome.threw.injEq] at hfail
        exact ⟨rfl, rfl, Or.inr (Or.inr (Or.inl ⟨hfail.symm, rfl, hb, rfl⟩))⟩
      · rw [setRegion_bound_ok env self source coords size hb hs] at hfail
        simp at hfail
  · intro hfail
    obtain ⟨he, hno⟩ := (updateEditableParameters_threw_iff env self e).1 hfail
    rw [updateEditableParameters_threw env self hno]
    refine ⟨he, rfl, rfl, rfl, ?_, ?_⟩
    · cases hie : self.ispcEquivalent <;> simp [Volume.submittedTasks, Volume.withIE, hie]
    · intro ie hie
      simp only [Volume.withIE, hie, Option.map_some']
      exact ⟨_, rfl, rfl, rfl, rfl, rfl, rfl, rfl, rfl⟩

theorem C4_failure_state_witness :
    (setRegion sampleEnv floatVolume404 77 ⟨0, 0, 0⟩ ⟨2, 2, 2⟩).2.params
        = floatVolume404.params ∧
    (boundVolume222.updateEditableParameters sampleEnv).2.dimensions
        = boundVolume222.dimensions :=
  ⟨((C4_failure_state sampleEnv floatVolume404 77 ⟨0, 0, 0⟩ ⟨2, 2, 2⟩
      Error.InvalidDimensions).1 (by decide)).1,
   ((C4_failure_state sampleEnv boundVolume222 77 ⟨0, 0, 0⟩ ⟨2, 2, 2⟩
      Error.MissingDependency).2 (by decide)).2.2.2.1⟩

/-- C5, as stated, fails: on a volume as constructed (no binding, no "voxelType"
parameter) `setRegion` with a null source fails with UnrecognizedType, not with
InvalidArgument, because the binding is created before the source is checked. -/
theorem C5_counterexample :
    (setRegion sampleEnv freshVolume nullptr ⟨0, 0, 0⟩ ⟨2, 2, 2⟩).1
        = Outcome.threw Error.UnrecognizedType ∧
    (setRegion sampleEnv freshVolume nullptr ⟨0, 0, 0⟩ ⟨2, 2, 2⟩).1
        ≠ Outcome.threw Error.InvalidArgument := by
  decide

/-- C5 (amended): for every volume and every region origin and extent, `setRegion` called
with a null source does not return success and submits no scatter-copy task. It fails
with InvalidArgument exactly when the native binding already exists or can be created
(known voxel type and all dimensions > 0); otherwise the binding is absent and the call
fails with the error of the creation, UnrecognizedType or InvalidDimensions. -/
theorem C5_null_source (env : Env) (self : Volume) (coords size : vec3i) :
    (∀ r, (setRegion env self nullptr coords size).1 ≠ Outcome.returned r) ∧
    (setRegion env self nullptr coords size).2.submittedTasks = self.submittedTasks ∧
    ((setRegion env self nullptr coords size).1 = Outcome.threw Error.InvalidArgument ↔
      (self.ispcEquivalent ≠ none ∨
        (env.typeForString (getParamString self.params "voxelType" "unspecified")
            ≠ OSPDataType.OSP_UNKNOWN ∧
          0 < (getParam3i self.params "dimensions" ⟨0, 0, 0⟩).x ∧
          0 < (getParam3i self.params "dimensions" ⟨0, 0, 0⟩).y ∧
          0 < (getParam3i self.params "dimensions" ⟨0, 0, 0⟩).z))) ∧
    ((setRegion env self nullptr coords size).1 = Outcome.threw Error.InvalidArgument ∨
      (self.ispcEquivalent = none ∧
        ((setRegion env self nullptr coords size).1 = Outcome.threw Error.UnrecognizedType ∨
         (setRegion env self nullptr coords size).1
            = Outcome.threw Error.InvalidDimensions))) := by
  have hsplat : vec3i.splat 0 = ⟨0, 0, 0⟩ := rfl
  by_cases hb : self.ispcEquivalent = none
  · by_cases ht : env.typeForString (getParamString self.params "voxelType" "unspecified")
        = OSPDataType.OSP_UNKNOWN
    · rw [setRegion_unknown env self nullptr coords size hb ht]
      refine ⟨fun r h => by simp at h, by simp [Volume.submittedTasks, hb], ?_, ?_⟩
      · constructor
        · intro h
          simp at h
        · rintro (h | ⟨h, _⟩)
          · exact absurd hb h
          · exact absurd ht h
      · exact Or.inr ⟨hb, Or.inl rfl⟩
    · by_cases hd : reduce_min (getParam3i self.params "dimensions" (vec3i.splat 0)) ≤ 0
      · rw [setRegion_badDims env self nullptr coords size hb ht hd]
        have hax := (reduce_min_le_zero_iff _).1 hd
        rw [hsplat] at hax
        refine ⟨fun r h => by simp at h, by simp [Volume.submittedTasks, hb], ?_, ?_⟩
        · constructor
          · intro h
            simp at h
          · rintro (h | ⟨_, hx, hy, hz⟩)
            · exact absurd hb h
            · omega
        · exact Or.inr ⟨hb, Or.inr rfl⟩
      · rw [setRegion_created env self nullptr coords size hb ht hd, if_pos rfl]
        have hax : ¬ ((getParam3i self.params "dimensions" ⟨0, 0, 0⟩).x ≤ 0 ∨
            (getParam3i self.params "dimensions" ⟨0, 0, 0⟩).y ≤ 0 ∨
            (getParam3i self.params "dimensions" ⟨0, 0, 0⟩).z ≤ 0) := by
          intro h
          exact hd ((reduce_min_le_zero_iff _).2 (hsplat ▸ h))
        refine ⟨fun r h => by simp at h, ?_, ?_, Or.inl rfl⟩
        · simp [Volume.submittedTasks, hb, Volume.created, ispc.GBBV_createInstance]
        · constructor
          · intro _
            refine Or.inr ⟨ht, ?_, ?_, ?_⟩ <;> omega
          · intro _
            rfl
  · rw [setRegion_bound_null env self coords size hb]
    exact ⟨fun r h => by simp at h, rfl, ⟨fun _ => Or.inl hb, fun _ => rfl⟩, Or.inl rfl⟩

end GhostBlockBrickedVolume

/-- C6: on a volume whose native binding exists (the state in which commit reaches the
parameter push), `updateEditableParameters` fails with MissingDependency when no object
is attached under the name "transferFunction"; and when an object is attached there the
push returns (so it does not fail with that error, nor with any other) and the native
binding then holds that object's handle `getIE()` as its transfer function. -/
theorem C6_transfer_function (env : Env) (self : Volume) (ie : IspcVolume)
    (hb : self.ispcEquivalent = some ie) :
    (getParamObject self.params "transferFunction" none = none →
      (self.updateEditableParameters env).1 = Outcome.threw Error.MissingDependency) ∧
    (∀ tf, getParamObject self.params "transferFunction" none = some tf →
      (self.updateEditableParameters env).1 = Outcome.returned () ∧
      ∃ ie2, (self.updateEditableParameters env).2.ispcEquivalent = some ie2 ∧
        ie2.transferFunction = some tf.getIE) := by
  constructor
  · intro h
    rw [updateEditableParameters_threw env self h]
  · intro tf h
    rw [updateEditableParameters_returned env self tf h]
    refine ⟨rfl, ?_⟩
    simp only [Volume.withIE, hb, Option.map_some']
    exact ⟨_, rfl, rfl⟩

theorem C6_transfer_function_witness :
    (boundVolume222.updateEditableParameters sampleEnv).1
        = Outcome.threw Error.MissingDependency ∧
    ((boundVolume222.setParam "transferFunction"
        (ParamValue.object ⟨9⟩)).updateEditableParameters sampleEnv).1
        = Outcome.returned () :=
  ⟨(C6_transfer_function sampleEnv boundVolume222 nativeFloat222 rfl).1 (by decide),
   ((C6_transfer_function sampleEnv
      (boundVolume222.setParam "transferFunction" (ParamValue.object ⟨9⟩))
      nativeFloat222 rfl).2 ⟨9⟩ (by decide)).1⟩

/-! ### Sequences of calls -/

theorem Op_run_frame (env : Env) (self : Volume) (op : Op) (ie : IspcVolume)
    (hb : self.ispcEquivalent = some ie) :
    (Op.run env self op).voxelType = self.voxelType ∧
    (Op.run env self op).dimensions = self.dimensions ∧
    ∃ ie2, (Op.run env self op).ispcEquivalent = some ie2 ∧ ie2.handle = ie.handle ∧
      ie2.voxelType = ie.voxelType ∧ ie2.dimensions = ie.dimensions := by
  have hne : self.ispcEquivalent ≠ none := by simp [hb]
  cases op with
  | setParam name value => exact ⟨rfl, rfl, ie, hb, rfl, rfl, rfl⟩
  | setRegion source coords size =>
    by_cases hs : source = nullptr
    · subst hs
      simp only [Op.run]
      rw [GhostBlockBrickedVolume.setRegion_bound_null env self coords size hne]
      exact ⟨rfl, rfl, ie, hb, rfl, rfl, rfl⟩
    · simp only [Op.run,
        GhostBlockBrickedVolume.setRegion_bound_ok env self source coords size hne hs]
      refine ⟨rfl, rfl, ?_⟩
      rw [GhostBlockBrickedVolume.receive_some self _ ie hb]
      exact ⟨_, rfl, rfl, rfl, rfl⟩
  | commit =>
    simp only [Op.run, GhostBlockBrickedVolume.commit, hne, if_false, StructuredVolume.commit]
    cases h : getParamObject self.params "transferFunction" none with
    | none =>
      rw [updateEditableParameters_threw env self h]
      refine ⟨rfl, rfl, ?_⟩
      simp only [Volume.withIE, hb, Option.map_some']
      exact ⟨_, rfl, rfl, rfl, rfl⟩
    | some tf =>
      rw [updateEditableParameters_returned env self tf h]
      refine ⟨rfl, rfl, ?_⟩
      simp only [Volume.withIE, hb, Option.map_some']
      exact ⟨_, rfl, rfl, rfl, rfl⟩

/-- C7: once the native binding exists, no later call replaces it or changes the
members `dimensions` and `voxelType`: after any sequence of `setParam` (of any name, so
also "dimensions" and "voxelType"), `setRegion` and `commit` calls, whether they return or
throw, the volume still has a binding with the same handle, created with the same voxel
type and dimensions, and its members `voxelType` and `dimensions` are what they were. -/
theorem C7_binding_never_recreated (env : Env) (self : Volume) (ie : IspcVolume)
    (ops : List Op) (hb : self.ispcEquivalent = some ie) :
    (runOps env self ops).voxelType = self.voxelType ∧
    (runOps env self ops).dimensions = self.dimensions ∧
    ∃ ie2, (runOps env self ops).ispcEquivalent = some ie2 ∧ ie2.handle = ie.handle ∧
      ie2.voxelType = ie.voxelType ∧ ie2.dimensions = ie.dimensions := by
  induction ops generalizing self ie with
  | nil => exact ⟨rfl, rfl, ie, hb, rfl, rfl, rfl⟩
  | cons op ops ih =>
    obtain ⟨hv, hd, ie1, hb1, hh1, ht1, hd1⟩ := Op_run_frame env self op ie hb
    obtain ⟨hv2, hd2, ie2, hb2, hh2, ht2, hdim2⟩ := ih (Op.run env self op) ie1 hb1
    simp only [runOps, List.foldl_cons] at hv2 hd2 hb2 ⊢
    exact ⟨hv2.trans hv, hd2.trans hd, ie2, hb2, hh2.trans hh1, ht2.trans ht1,
      hdim2.trans hd1⟩

theorem C7_binding_never_recreated_witness :
    (runOps sampleEnv boundVolume222
        [Op.setParam "dimensions" (ParamValue.int3 ⟨8, 8, 8⟩),
         Op.setParam "voxelType" (ParamValue.string "uchar"),
         Op.setRegion 77 ⟨0, 0, 0⟩ ⟨2, 2, 2⟩, Op.commit]).dimensions
      = boundVolume222.dimensions :=
  (C7_binding_never_recreated sampleEnv boundVolume222 nativeFloat222
    [Op.setParam "dimensions" (ParamValue.int3 ⟨8, 8, 8⟩),
     Op.setParam "voxelType" (ParamValue.string "uchar"),
     Op.setRegion 77 ⟨0, 0, 0⟩ ⟨2, 2, 2⟩, Op.commit] rfl).2.1

/-- C8, as stated, fails: a volume as constructed with only "voxelType" = "float" and
"dimensions" = (2,2,2) set accepts the region write of extent (2,2,2) at the origin, but
the `commit()` that follows throws, because no transfer function is attached. -/
theorem C8_counterexample :
    (GhostBlockBrickedVolume.setRegion sampleEnv floatVolume222 77 ⟨0, 0, 0⟩ ⟨2, 2, 2⟩).1
        = Outcome.returned 1 ∧
    (GhostBlockBrickedVolume.commit (StructuredVolume.commit sampleEnv)
        (GhostBlockBrickedVolume.setRegion sampleEnv floatVolume222 77
          ⟨0, 0, 0⟩ ⟨2, 2, 2⟩).2).1
        = Outcome.threw Error.MissingDependency := by
  decide

/-- C8 (amended): for every known voxel type and every dimensions vector with all axes > 0,
a volume without native binding that has those two parameters set and a transfer function
object attached accepts one `setRegion` with a non-null buffer of extent exactly the
dimensions at origin (0,0,0), and the `commit()` that follows returns: neither call
raises an error. -/
theorem C8_ingest_then_commit (env : Env) (self : Volume) (typeName : String) (dims : vec3i)
    (tf : ManagedObject) (source : Ptr)
    (hb : self.ispcEquivalent = none)
    (hv : findParam self.params "voxelType" = some (ParamValue.string typeName))
    (hk : env.typeForString typeName ≠ OSPDataType.OSP_UNKNOWN)
    (hd : findParam self.params "dimensions" = some (ParamValue.int3 dims))
    (hpos : 0 < dims.x ∧ 0 < dims.y ∧ 0 < dims.z)
    (htf : findParam self.params "transferFunction" = some (ParamValue.object tf))
    (hs : source ≠ nullptr) :
    (GhostBlockBrickedVolume.setRegion env self source ⟨0, 0, 0⟩ dims).1
        = Outcome.returned 1 ∧
    (GhostBlockBrickedVolume.commit (StructuredVolume.commit env)
        (GhostBlockBrickedVolume.setRegion env self source ⟨0, 0, 0⟩ dims).2).1
        = Outcome.returned () := by
  have hvs : getParamString self.params "voxelType" "unspecified" = typeName := by
    simp [getParamString, hv]
  have hds : getParam3i self.params "dimensions" (vec3i.splat 0) = dims := by
    simp [getParam3i, hd]
  have ht : env.typeForString (getParamString self.params "voxelType" "unspecified")
      ≠ OSPDataType.OSP_UNKNOWN := by
    rw [hvs]
    exact hk
  have hmin : ¬ reduce_min (getParam3i self.params "dimensions" (vec3i.splat 0)) ≤ 0 := by
    rw [hds, reduce_min_le_zero_iff]
    omega
  have hobj : getParamObject self.params "transferFunction" none = some tf := by
    simp [getParamObject, htf]
  rw [GhostBlockBrickedVolume.setRegion_created env self source ⟨0, 0, 0⟩ dims hb ht hmin,
    if_neg hs]
  refine ⟨rfl, ?_⟩
  have hobj2 : getParamObject ((self.created env).receive
      (scatterTasks
        (env.scaleRegion (self.created env) source source dims ⟨0, 0, 0⟩).out
        (env.scaleRegion (self.created env) source source dims ⟨0, 0, 0⟩).regionCoords
        (env.scaleRegion (self.created env) source source dims ⟨0, 0, 0⟩).regionSize
        (int_mul (env.scaleRegion (self.created env) source source dims ⟨0, 0, 0⟩).regionSize.y
         (env.scaleRegion (self.created env) source source dims ⟨0, 0, 0⟩).regionSize.z))).params
      "transferFunction" none = some tf := hobj
  simp only [GhostBlockBrickedVolume.commit, StructuredVolume.commit]
  rw [updateEditableParameters_returned env _ tf hobj2]
  simp [Volume.receive, Volume.withIE, Volume.created]

theorem C8_ingest_then_commit_witness :
    (GhostBlockBrickedVolume.setRegion sampleEnv
        (floatVolume222.setParam "transferFunction" (ParamValue.object ⟨9⟩))
        77 ⟨0, 0, 0⟩ ⟨2, 2, 2⟩).1 = Outcome.returned 1 ∧
    (GhostBlockBrickedVolume.commit (StructuredVolume.commit sampleEnv)
        (GhostBlockBrickedVolume.setRegion sampleEnv
          (floatVolume222.setParam "transferFunction" (ParamValue.object ⟨9⟩))
          77 ⟨0, 0, 0⟩ ⟨2, 2, 2⟩).2).1 = Outcome.returned () :=
  C8_ingest_then_commit sampleEnv
    (floatVolume222.setParam "transferFunction" (ParamValue.object ⟨9⟩))
    "float" ⟨2, 2, 2⟩ ⟨9⟩ 77 rfl (by decide) (by decide) (by decide) (by decide) (by decide)
    (by decide)

/-! ### Alias chains and idempotence of the push -/

theorem withIE_withIE (self : Volume) (f g : IspcVolume → IspcVolume) :
    (self.withIE f).withIE g = self.withIE fun ie => g (f ie) := by
  cases self with
  | mk params ie voxelType dimensions =>
    cases ie <;> simp [Volume.withIE]

theorem pushedSpecular_setParam2 (env : Env) (self : Volume) (ie : IspcVolume)
    (hb : self.ispcEquivalent = some ie) (n1 n2 : String) (t1 t2 : ParamValue) :
    ((self.setParam n1 t1).setParam n2 t2).pushedSpecular env =
      some (getParam3f (setParam (setParam self.params n1 t1) n2 t2) "specular"
        (getParam3f (setParam (setParam self.params n1 t1) n2 t2) "ks"
          (getParam3f (setParam (setParam self.params n1 t1) n2 t2) "Ks"
            (vec3f.splat F32.lit0_3)))) :=
  pushedSpecular_eq env ((self.setParam n1 t1).setParam n2 t2) ie hb

theorem pushedNs_setParam2 (env : Env) (self : Volume) (ie : IspcVolume)
    (hb : self.ispcEquivalent = some ie) (n1 n2 : String) (t1 t2 : ParamValue) :
    ((self.setParam n1 t1).setParam n2 t2).pushedNs env =
      some (getParam1f (setParam (setParam self.params n1 t1) n2 t2) "ns"
        (getParam1f (setParam (setParam self.params n1 t1) n2 t2) "Ns" F32.lit20)) :=
  pushedNs_eq env ((self.setParam n1 t1).setParam n2 t2) ie hb

/-- C9: the specular colour that the parameter push hands to the native binding is the
value of the first of the aliases "specular", "ks", "Ks" that is set, else (0.3,0.3,0.3),
and the shininess exponent is the value of the first of "ns", "Ns" that is set, else 20.
An earlier alias wins over a later one in whichever order the two were set: "specular"
over "ks", "ks" over "Ks" (when "specular" is not set), and "ns" over "Ns". -/
theorem C9_alias_chains (env : Env) (self : Volume) (ie : IspcVolume)
    (hb : self.ispcEquivalent = some ie) :
    self.pushedSpecular env = some (resolveAliases (lookup3f self.params)
      ⟨F32.lit0_3, F32.lit0_3, F32.lit0_3⟩ ["specular", "ks", "Ks"]) ∧
    self.pushedNs env = some (resolveAliases (lookup1f self.params) F32.lit20 ["ns", "Ns"]) ∧
    (∀ a k : vec3f,
      ((self.setParam "ks" (ParamValue.float3 k)).setParam "specular"
          (ParamValue.float3 a)).pushedSpecular env = some a ∧
      ((self.setParam "specular" (ParamValue.float3 a)).setParam "ks"
          (ParamValue.float3 k)).pushedSpecular env = some a) ∧
    (∀ k K : vec3f, lookup3f self.params "specular" = none →
      ((self.setParam "Ks" (ParamValue.float3 K)).setParam "ks"
          (ParamValue.float3 k)).pushedSpecular env = some k ∧
      ((self.setParam "ks" (ParamValue.float3 k)).setParam "Ks"
          (ParamValue.float3 K)).pushedSpecular env = some k) ∧
    (∀ n N : F32,
      ((self.setParam "Ns" (ParamValue.float1 N)).setParam "ns"
          (ParamValue.float1 n)).pushedNs env = some n ∧
      ((self.setParam "ns" (ParamValue.float1 n)).setParam "Ns"
          (ParamValue.float1 N)).pushedNs env = some n) := by
  refine ⟨?_, ?_, ?_, ?_, ?_⟩
  · rw [pushedSpecular_eq env self ie hb, specular_chain_eq]
    rfl
  · rw [pushedNs_eq env self ie hb, ns_chain_eq]
  · intro a k
    constructor
    · rw [pushedSpecular_setParam2 env self ie hb]
      simp [getParam3f_eq_lookup, lookup3f_setParam]
    · rw [pushedSpecular_setParam2 env self ie hb]
      simp [getParam3f_eq_lookup, lookup3f_setParam]
  · intro k K hsp
    constructor
    · rw [pushedSpecular_setParam2 env self ie hb]
      simp [getParam3f_eq_lookup, lookup3f_setParam, hsp]
    · rw [pushedSpecular_setParam2 env self ie hb]
      simp [getParam3f_eq_lookup, lookup3f_setParam, hsp]
  · intro n N
    constructor
    · rw [pushedNs_setParam2 env self ie hb]
      simp [getParam1f_eq_lookup, lookup1f_setParam]
    · rw [pushedNs_setParam2 env self ie hb]
      simp [getParam1f_eq_lookup, lookup1f_setParam]

theorem C9_alias_chains_witness :
    (boundVolume222.setParam "Ks" (ParamValue.float3 ⟨F32.one, F32.one, F32.one⟩)).pushedSpecular
        sampleEnv
      = some (resolveAliases
          (lookup3f (boundVolume222.setParam "Ks"
            (ParamValue.float3 ⟨F32.one, F32.one, F32.one⟩)).params)
          ⟨F32.lit0_3, F32.lit0_3, F32.lit0_3⟩ ["specular", "ks", "Ks"]) :=
  (C9_alias_chains sampleEnv
    (boundVolume222.setParam "Ks" (ParamValue.float3 ⟨F32.one, F32.one, F32.one⟩))
    nativeFloat222 rfl).1

/-- C10: the parameter push is idempotent. Whenever `updateEditableParameters` returns, it
has left the parameter store as it was, and running it again at once returns too and
leaves the whole volume, and so every value held by the native binding (flags, sampling
rates, specular, shininess, transfer function, clipping box, transform and its inverse),
exactly as the first run left it. The same holds of `Volume::commit()`, whose body is
empty. -/
theorem C10_commit_idempotent (env : Env) (self : Volume)
    (h : (self.updateEditableParameters env).1 = Outcome.returned ()) :
    (self.updateEditableParameters env).2.params = self.params ∧
    (self.updateEditableParameters env).2.updateEditableParameters env
      = (Outcome.returned (), (self.updateEditableParameters env).2) ∧
    Volume.commit (Volume.commit self).2 = Volume.commit self := by
  cases htf : getParamObject self.params "transferFunction" none with
  | none =>
    rw [updateEditableParameters_threw env self htf] at h
    simp at h
  | some tf =>
    rw [updateEditableParameters_returned env self tf htf]
    refine ⟨rfl, ?_, rfl⟩
    have htf2 : getParamObject (self.withIE fun ie =>
        { ie with
          gradientShadingEnabled := some (getParam1i self.params "gradientShadingEnabled" 0)
          preIntegration := some (getParam1i self.params "preIntegration" 0)
          singleShade := some (getParam1i self.params "singleShade" 1)
          adaptiveSampling := some (getParam1i self.params "adaptiveSampling" 1)
          adaptiveScalar := some (getParam1f self.params "adaptiveScalar" F32.lit15)
          adaptiveMaxSamplingRate :=
            some (getParam1f self.params "adaptiveMaxSamplingRate" F32.lit2)
          adaptiveBacktrack := some (getParam1f self.params "adaptiveBacktrack" F32.lit0_03)
          samplingRate := some (getParam1f self.params "samplingRate" F32.lit0_125)
          specular := some (getParam3f self.params "specular"
            (getParam3f self.params "ks"
              (getParam3f self.params "Ks" (vec3f.splat F32.lit0_3))))
          ns := some (getParam1f self.params "ns" (getParam1f self.params "Ns" F32.lit20))
          transferFunction := some tf.getIE
          volumeClippingBox := some
            ⟨getParam3f self.params "volumeClippingBoxLower" (vec3f.splat F32.zero),
             getParam3f self.params "volumeClippingBoxUpper" (vec3f.splat F32.zero)⟩
          xfm := some
            { l := { vx := getParam3f self.params "xfm.l.vx" ⟨F32.one, F32.zero, F32.zero⟩
                     vy := getParam3f self.params "xfm.l.vy" ⟨F32.zero, F32.one, F32.zero⟩
                     vz := getParam3f self.params "xfm.l.vz" ⟨F32.zero, F32.zero, F32.one⟩ }
              p := getParam3f self.params "xfm.p" ⟨F32.zero, F32.zero, F32.zero⟩ }
          rcp_xfm := some (env.rcp
            { l := { vx := getParam3f self.params "xfm.l.vx" ⟨F32.one, F32.zero, F32.zero⟩
                     vy := getParam3f self.params "xfm.l.vy" ⟨F32.zero, F32.one, F32.zero⟩
                     vz := getParam3f self.params "xfm.l.vz" ⟨F32.zero, F32.zero, F32.one⟩ }
              p := getParam3f self.params "xfm.p" ⟨F32.zero, F32.zero, F32.zero⟩ }) }).params
        "transferFunction" none = some tf := htf
    rw [updateEditableParameters_returned env _ tf htf2, withIE_withIE]
    rfl

theorem C10_commit_idempotent_witness :
    ((boundVolume222.setParam "transferFunction"
        (ParamValue.object ⟨9⟩)).updateEditableParameters sampleEnv).2.updateEditableParameters
        sampleEnv
      = (Outcome.returned (),
          ((boundVolume222.setParam "transferFunction"
            (ParamValue.object ⟨9⟩)).updateEditableParameters sampleEnv).2) :=
  (C10_commit_idempotent sampleEnv
    (boundVolume222.setParam "transferFunction" (ParamValue.object ⟨9⟩)) (by decide)).2.1

/-! ### Queries: `computeSamples` and `finish` -/

theorem memcpy_length (src : Nat → F32) (count : Nat) : (memcpy src count).length = count := by
  simp [memcpy]

theorem memcpy_getElem? (src : Nat → F32) (count i : Nat) :
    (memcpy src count)[i]? = if i < count then some (src i) else none := by
  unfold memcpy
  by_cases h : i < count
  · simp [h, List.getElem?_map, List.getElem?_range h]
  · have h2 : (List.map src (List.range count)).length ≤ i := by simp; omega
    simp [h, List.getElem?_eq_none h2]

theorem memcpy_congr (src src2 : Nat → F32) (count : Nat)
    (h : ∀ i, i < count → src2 i = src i) : memcpy src2 count = memcpy src count := by
  unfold memcpy
  apply List.map_congr_left
  intro i hi
  exact h i (List.mem_range.1 hi)

theorem size_t_mul_div (count : Nat) (h : count * sizeof_float < 2 ^ 64) :
    size_t_mul count sizeof_float / sizeof_float = count := by
  unfold size_t_mul
  rw [Nat.mod_eq_of_lt h]
  simp [sizeof_float]

theorem computeSamples_bound (build : Build) (nq : NativeQueries) (self : Volume)
    (ie : IspcVolume) (worldCoordinates : List vec3f) (count : Nat)
    (hb : self.ispcEquivalent = some ie) (hmax : count ≤ build.vector_max_size)
    (hsize : count * sizeof_float < 2 ^ 64) :
    self.computeSamples build nq worldCoordinates count =
      (Ending.returned (memcpy (nq.Volume_computeSamples ie worldCoordinates count) count),
        self) := by
  have hnot : ¬ build.vector_max_size < count := by omega
  simp [Volume.computeSamples, hb, hnot, size_t_mul_div count hsize]

theorem computeSamples_too_long (build : Build) (nq : NativeQueries) (self : Volume)
    (ie : IspcVolume) (worldCoordinates : List vec3f) (count : Nat)
    (hb : self.ispcEquivalent = some ie) (hmax : build.vector_max_size < count) :
    self.computeSamples build nq worldCoordinates count
      = (Ending.threw Error.LengthError, self) := by
  simp [Volume.computeSamples, hb, hmax]

/-- C11, as stated, fails: on a volume whose binding exists, `computeSamples` with count
2^62 returns no buffer of 2^62 values but throws the length error of
`std::vector<float>(count)`; and in a build with `NDEBUG`, on a volume without binding,
the `assert` is no code, so the call does not fail with IllegalState but runs on into the
native call through the null handle. -/
theorem C11_counterexample :
    (boundVolume222.computeSamples sampleBuild sampleQueries samplePositions
        4611686018427387904).1 = Ending.threw Error.LengthError ∧
    freshVolume.ispcEquivalent = none ∧
    (freshVolume.computeSamples releaseBuild sampleQueries samplePositions 3).1
      = Ending.undefined := by
  decide

/-- C11 (amended): in a build with assertions compiled in, `computeSamples` ends in the
precondition failure IllegalState (the failed `assert` aborts the process) if and only
if the volume has no native binding. When the binding exists, in either build, for every
count that a `std::vector<float>` can hold and whose size in bytes fits `size_t` (0
included) the call returns, leaves the volume as it was, and hands back a buffer of
exactly `count` values whose element `i` is the native backend's `i`-th sample; there is
no element at an index ≥ `count`, and the buffer does not depend on what the backend's
buffer holds at indices ≥ `count` (a backend `nq2` that agrees with `nq` below `count`
gives the same result). For a count above the vector's maximum size the call throws the
vector's length error instead. -/
theorem C11_computeSamples (build : Build) (nq nq2 : NativeQueries) (self : Volume)
    (worldCoordinates : List vec3f) (count : Nat) :
    (build.NDEBUG = false →
      ((self.computeSamples build nq worldCoordinates count).1
          = Ending.aborted Error.IllegalState ↔
        self.ispcEquivalent = none)) ∧
    (∀ ie, self.ispcEquivalent = some ie →
      (count ≤ build.vector_max_size → count * sizeof_float < 2 ^ 64 →
        ∃ results,
          self.computeSamples build nq worldCoordinates count
            = (Ending.returned results, self) ∧
          results.length = count ∧
          (∀ i, i < count →
            results[i]? = some (nq.Volume_computeSamples ie worldCoordinates count i)) ∧
          (∀ i, count ≤ i → results[i]? = none) ∧
          ((∀ i, i < count → nq2.Volume_computeSamples ie worldCoordinates count i
              = nq.Volume_computeSamples ie worldCoordinates count i) →
            self.computeSamples build nq2 worldCoordinates count
              = self.computeSamples build nq worldCoordinates count)) ∧
      (build.vector_max_size < count →
        self.computeSamples build nq worldCoordinates count
          = (Ending.threw Error.LengthError, self))) := by
  constructor
  · intro hdebug
    cases h : self.ispcEquivalent with
    | none => simp [Volume.computeSamples, h, hdebug]
    | some ie =>
      by_cases hmax : build.vector_max_size < count
      · simp [Volume.computeSamples, h, hmax]
      · simp [Volume.computeSamples, h, hmax]
  · intro ie h
    constructor
    · intro hmax hsize
      refine ⟨memcpy (nq.Volume_computeSamples ie worldCoordinates count) count,
        computeSamples_bound build nq self ie worldCoordinates count h hmax hsize,
        memcpy_length _ _, ?_, ?_, ?_⟩
      · intro i hi
        rw [memcpy_getElem?, if_pos hi]
      · intro i hi
        rw [memcpy_getElem?, if_neg (by omega)]
      · intro hagree
        rw [computeSamples_bound build nq self ie worldCoordinates count h hmax hsize,
          computeSamples_bound build nq2 self ie worldCoordinates count h hmax hsize,
          memcpy_congr _ _ count hagree]
    · intro hmax
      exact computeSamples_too_long build nq self ie worldCoordinates count h hmax

theorem C11_computeSamples_witness :
    ∃ results, boundVolume222.computeSamples sampleBuild sampleQueries samplePositions 3
        = (Ending.returned results, boundVolume222) ∧
      results.length = 3 ∧ results[2]? = some F32.lit15 :=
  match ((C11_computeSamples sampleBuild sampleQueries sampleQueries boundVolume222
      samplePositions 3).2 nativeFloat222 rfl).1 (by decide) (by decide) with
  | ⟨results, h1, h2, h3, _⟩ => ⟨results, h1, h2, h3 2 (by decide)⟩

theorem finish_bound (nq : NativeQueries) (self : Volume) (ie : IspcVolume)
    (hb : self.ispcEquivalent = some ie) :
    self.finish nq =
      (Outcome.returned (),
        { self with
          params := setParam
            (setParam self.params "boundingBoxMin"
              (ParamValue.float3 (nq.Volume_getBoundingBox ie).lower))
            "boundingBoxMax" (ParamValue.float3 (nq.Volume_getBoundingBox ie).upper) }) := by
  simp [Volume.finish, hb]

/-- C12: on a volume with a native binding, `finish()` returns and leaves the parameters
"boundingBoxMin" and "boundingBoxMax" set to the lower and the upper corner of the
bounding box that the native binding reports; every other parameter reads as before, and
the native binding and the members `voxelType` and `dimensions` are unchanged. -/
theorem C12_finish (nq : NativeQueries) (self : Volume) (ie : IspcVolume)
    (hb : self.ispcEquivalent = some ie) :
    (self.finish nq).1 = Outcome.returned () ∧
    findParam (self.finish nq).2.params "boundingBoxMin"
      = some (ParamValue.float3 (nq.Volume_getBoundingBox ie).lower) ∧
    findParam (self.finish nq).2.params "boundingBoxMax"
      = some (ParamValue.float3 (nq.Volume_getBoundingBox ie).upper) ∧
    (∀ name, name ≠ "boundingBoxMin" → name ≠ "boundingBoxMax" →
      findParam (self.finish nq).2.params name = findParam self.params name) ∧
    (self.finish nq).2.ispcEquivalent = self.ispcEquivalent ∧
    (self.finish nq).2.voxelType = self.voxelType ∧
    (self.finish nq).2.dimensions = self.dimensions := by
  rw [finish_bound nq self ie hb]
  refine ⟨rfl, ?_, ?_, ?_, rfl, rfl, rfl⟩
  · simp [findParam_setParam]
  · simp [findParam_setParam]
  · intro name h1 h2
    simp [findParam_setParam, h1, h2]

theorem C12_finish_witness :
    findParam (boundVolume222.finish sampleQueries).2.params "boundingBoxMax"
      = some (ParamValue.float3 (vec3f.splat F32.one)) :=
  (C12_finish sampleQueries boundVolume222 nativeFloat222 rfl).2.2.1

/-! ### Process groups -/

namespace mpi

theorem makeIntercomm_member (mpi : MPI) (g : Group) (c : Communicator)
    (hg : g.comm = some c) (hm : mpi.me ∈ c.localGroup) :
    g.makeIntercomm mpi =
      { containsMe := true, comm := g.comm,
        rank := Int.ofNat (c.localGroup.indexOf mpi.me),
        size := Int.ofNat c.localGroup.length } := by
  simp [Group.makeIntercomm, MPI_Comm_rank, MPI_Comm_size, hg, hm]

theorem makeIntracomm_remote (mpi : MPI) (g : Group) (c : Communicator) (remote : List Nat)
    (hg : g.comm = some c) (hr : c.remoteGroup = some remote) :
    g.makeIntracomm mpi =
      { containsMe := false, comm := g.comm, rank := mpi.MPI_ROOT,
        size := Int.ofNat remote.length } := by
  simp [Group.makeIntracomm, MPI_Comm_remote_size, hg, hr]

/-- C13: for every communicator with N members, the member initialisation
(`makeIntercomm`, the spec's `initAsIntra`) run by a member process leaves the membership
flag true, the size equal to N and the rank equal to the position of the process in the
local group, which lies in [0, N); the communicator handle is unchanged; and two distinct
member processes initialising their groups on that communicator get distinct ranks. -/
theorem C13_member_group (mpi mpi2 : MPI) (g g2 : Group) (c : Communicator) (N : Nat)
    (hg : g.comm = some c) (hg2 : g2.comm = some c) (hN : c.localGroup.length = N)
    (hm : mpi.me ∈ c.localGroup) (hm2 : mpi2.me ∈ c.localGroup) :
    (g.makeIntercomm mpi).containsMe = true ∧
    (g.makeIntercomm mpi).size = N ∧
    0 ≤ (g.makeIntercomm mpi).rank ∧ (g.makeIntercomm mpi).rank < N ∧
    c.localGroup[(g.makeIntercomm mpi).rank.toNat]? = some mpi.me ∧
    (g.makeIntercomm mpi).comm = g.comm ∧
    (mpi.me ≠ mpi2.me → (g.makeIntercomm mpi).rank ≠ (g2.makeIntercomm mpi2).rank) := by
  rw [makeIntercomm_member mpi g c hg hm, makeIntercomm_member mpi2 g2 c hg2 hm2]
  have hlt : c.localGroup.indexOf mpi.me < N := hN ▸ List.indexOf_lt_length.2 hm
  refine ⟨rfl, ?_, ?_, ?_, ?_, rfl, ?_⟩
  · simp [hN]
  · simp
  · simpa using hlt
  · simpa using List.getElem?_indexOf hm
  · intro hne heq
    simp only [Int.ofNat_eq_coe, Int.natCast_inj] at heq
    exact hne ((List.indexOf_inj hm hm2).1 heq)

theorem C13_member_group_witness :
    (sampleGroup.makeIntercomm sampleMPI).size = 3 ∧
    (sampleGroup.makeIntercomm sampleMPI).rank
      ≠ (sampleGroup.makeIntercomm sampleMPI12).rank :=
  ⟨(C13_member_group sampleMPI sampleMPI12 sampleGroup sampleGroup sampleComm 3
      rfl rfl rfl (by decide) (by decide)).2.1,
   (C13_member_group sampleMPI sampleMPI12 sampleGroup sampleGroup sampleComm 3
      rfl rfl rfl (by decide) (by decide)).2.2.2.2.2.2 (by decide)⟩

/-- C14: for every communicator that has a remote group, the non-member initialisation
(`makeIntracomm`, the spec's `initAsInter`) leaves the membership flag false, the rank
equal to `MPI_ROOT` whatever the rank was before, and the size equal to the number of
processes of the remote group, whatever the local group is; the communicator handle is
unchanged. -/
theorem C14_outside_group (mpi : MPI) (g : Group) (c : Communicator) (remote : List Nat)
    (hg : g.comm = some c) (hr : c.remoteGroup = some remote) :
    (g.makeIntracomm mpi).containsMe = false ∧
    (g.makeIntracomm mpi).rank = mpi.MPI_ROOT ∧
    (g.makeIntracomm mpi).size = remote.length ∧
    (g.makeIntracomm mpi).comm = g.comm := by
  rw [makeIntracomm_remote mpi g c remote hg hr]
  exact ⟨rfl, rfl, rfl, rfl⟩

theorem C14_outside_group_witness :
    (sampleGroup.makeIntracomm sampleMPI).rank = sampleMPI.MPI_ROOT ∧
    (sampleGroup.makeIntracomm sampleMPI).size = 2 :=
  ⟨(C14_outside_group sampleMPI sampleGroup sampleComm [20, 21] rfl rfl).2.1,
   (C14_outside_group sampleMPI sampleGroup sampleComm [20, 21] rfl rfl).2.2.1⟩

/-- C15, as stated, fails: a group that the member initialisation has initialized
(member, rank 1, size 3) is initialized again by the non-member initialisation, which is
not rejected and changes the membership flag, the rank and the size. -/
theorem C15_counterexample :
    ((sampleGroup.makeIntercomm sampleMPI).containsMe = true ∧
      (sampleGroup.makeIntercomm sampleMPI).rank = 1 ∧
      (sampleGroup.makeIntercomm sampleMPI).size = 3) ∧
    (((sampleGroup.makeIntercomm sampleMPI).makeIntracomm sampleMPI).containsMe = false ∧
      ((sampleGroup.makeIntercomm sampleMPI).makeIntracomm sampleMPI).rank = -3 ∧
      ((sampleGroup.makeIntercomm sampleMPI).makeIntracomm sampleMPI).size = 2) := by
  decide

/-- C15 (amended): a group as constructed is uninitialized: rank and size hold the
sentinel -1, the process is not a member and the communicator is the null handle. The
two initialisations are not guarded: on any group, initialized before or not, whose
communicator is valid for the call, the member initialisation sets the flag to true, the
rank to the local rank and the size to the local size, and the non-member initialisation
sets the flag to false, the rank to `MPI_ROOT` and the size to the remote size; earlier
values of flag, rank and size are overwritten and the communicator is left as it is. -/
theorem C15_init_unguarded (mpi : MPI) (g : Group) (c : Communicator)
    (hg : g.comm = some c) :
    (Group.new.rank = -1 ∧ Group.new.size = -1 ∧ Group.new.containsMe = false ∧
      Group.new.comm = MPI_COMM_NULL) ∧
    (mpi.me ∈ c.localGroup →
      g.makeIntercomm mpi =
        { containsMe := true, comm := g.comm,
          rank := Int.ofNat (c.localGroup.indexOf mpi.me),
          size := Int.ofNat c.localGroup.length }) ∧
    (∀ remote, c.remoteGroup = some remote →
      g.makeIntracomm mpi =
        { containsMe := false, comm := g.comm, rank := mpi.MPI_ROOT,
          size := Int.ofNat remote.length }) :=
  ⟨⟨rfl, rfl, rfl, rfl⟩, fun hm => makeIntercomm_member mpi g c hg hm,
    fun remote hr => makeIntracomm_remote mpi g c remote hg hr⟩

theorem C15_init_unguarded_witness :
    (sampleGroup.makeIntercomm sampleMPI).makeIntracomm sampleMPI =
      { containsMe := false, comm := some sampleComm, rank := -3, size := 2 } :=
  (C15_init_unguarded sampleMPI (sampleGroup.makeIntercomm sampleMPI) sampleComm rfl).2.2
    [20, 21] rfl

/-- C16: `barrier()` raises an error if and only if the barrier call on the channel
returns a status other than `MPI_SUCCESS`, and returns normally if and only if the status
is `MPI_SUCCESS`; either way the group (membership flag, communicator, rank, size) is
unchanged and exactly one barrier call, on the group's communicator, has been added to
the calls made on the channel. -/
theorem C16_barrier (mpi : MPI) (g : Group) (barrierCalls : List MPI_Comm) :
    ((∃ e, (g.barrier mpi barrierCalls).1 = Outcome.threw e) ↔
      mpi.MPI_Barrier g.comm barrierCalls.length ≠ mpi.MPI_SUCCESS) ∧
    ((g.barrier mpi barrierCalls).1 = Outcome.returned () ↔
      mpi.MPI_Barrier g.comm barrierCalls.length = mpi.MPI_SUCCESS) ∧
    (g.barrier mpi barrierCalls).2.1 = g ∧
    (g.barrier mpi barrierCalls).2.2 = barrierCalls ++ [g.comm] := by
  by_cases h : mpi.MPI_Barrier g.comm barrierCalls.length = mpi.MPI_SUCCESS
  · simp [Group.barrier, MPI_CALL, h]
  · simp [Group.barrier, MPI_CALL, h]

end mpi

/-! ### The scatter-copy of a region write -/

namespace GhostBlockBrickedVolume

theorem submittedTasks_receive (self : Volume) (tasks : List SetRegionTask)
    (hb : self.ispcEquivalent ≠ none) :
    (self.receive tasks).submittedTasks = self.submittedTasks ++ tasks := by
  cases h : self.ispcEquivalent with
  | none => exact absurd h hb
  | some ie => simp [Volume.submittedTasks, Volume.receive, Volume.withIE, h]

theorem submittedTasks_created (env : Env) (self : Volume)
    (tasks : List SetRegionTask) (hb : self.ispcEquivalent = none) :
    ((self.created env).receive tasks).submittedTasks = self.submittedTasks ++ tasks := by
  simp [Volume.submittedTasks, Volume.receive, Volume.withIE, Volume.created, hb,
    ispc.GBBV_createInstance]

theorem scatterTasks_length (source : Ptr) (coords size : vec3i) (n : Int) :
    (scatterTasks source coords size n).length = n.toNat := by
  simp [scatterTasks]

theorem int_mul_of_fits (a b : Int) (h : -2 ^ 31 ≤ a * b ∧ a * b < 2 ^ 31) :
    int_mul a b = a * b := by
  unfold int_mul
  generalize a * b = n at h ⊢
  omega

/-- The four ways in which `setRegion` ends. -/
theorem setRegion_cases (env : Env) (self : Volume) (source : Ptr) (coords size : vec3i) :
    (self.ispcEquivalent = none ∧
      env.typeForString (getParamString self.params "voxelType" "unspecified")
        = OSPDataType.OSP_UNKNOWN ∧
      (setRegion env self source coords size).1 = Outcome.threw Error.UnrecognizedType) ∨
    (self.ispcEquivalent = none ∧
      env.typeForString (getParamString self.params "voxelType" "unspecified")
        ≠ OSPDataType.OSP_UNKNOWN ∧
      reduce_min (getParam3i self.params "dimensions" (vec3i.splat 0)) ≤ 0 ∧
      (setRegion env self source coords size).1 = Outcome.threw Error.InvalidDimensions) ∨
    ((self.ispcEquivalent ≠ none ∨
        (env.typeForString (getParamString self.params "voxelType" "unspecified")
            ≠ OSPDataType.OSP_UNKNOWN ∧
          ¬ reduce_min (getParam3i self.params "dimensions" (vec3i.splat 0)) ≤ 0)) ∧
      source = nullptr ∧
      (setRegion env self source coords size).1 = Outcome.threw Error.InvalidArgument) ∨
    ((self.ispcEquivalent ≠ none ∨
        (env.typeForString (getParamString self.params "voxelType" "unspecified")
            ≠ OSPDataType.OSP_UNKNOWN ∧
          ¬ reduce_min (getParam3i self.params "dimensions" (vec3i.splat 0)) ≤ 0)) ∧
      source ≠ nullptr ∧
      (setRegion env self source coords size).1 = Outcome.returned 1 ∧
      (setRegion env self source coords size).2.submittedTasks =
        self.submittedTasks ++
          scatterTasks (finalRegion env self source coords size).out
            (finalRegion env self source coords size).regionCoords
            (finalRegion env self source coords size).regionSize
            (int_mul (finalRegion env self source coords size).regionSize.y
              (finalRegion env self source coords size).regionSize.z)) := by
  by_cases hb : self.ispcEquivalent = none
  · by_cases ht : env.typeForString (getParamString self.params "voxelType" "unspecified")
        = OSPDataType.OSP_UNKNOWN
    · exact Or.inl ⟨hb, ht, by rw [setRegion_unknown env self source coords size hb ht]⟩
    · by_cases hd : reduce_min (getParam3i self.params "dimensions" (vec3i.splat 0)) ≤ 0
      · exact Or.inr (Or.inl ⟨hb, ht, hd,
          by rw [setRegion_badDims env self source coords size hb ht hd]⟩)
      · by_cases hs : source = nullptr
        · refine Or.inr (Or.inr (Or.inl ⟨Or.inr ⟨ht, hd⟩, hs, ?_⟩))
          rw [setRegion_created env self source coords size hb ht hd, if_pos hs]
        · refine Or.inr (Or.inr (Or.inr ⟨Or.inr ⟨ht, hd⟩, hs, ?_, ?_⟩))
          · rw [setRegion_created env self source coords size hb ht hd, if_neg hs]
          · rw [setRegion_created env self source coords size hb ht hd, if_neg hs]
            simp only [finalRegion, hb, if_true]
            exact submittedTasks_created env self _ hb
  · by_cases hs : source = nullptr
    · refine Or.inr (Or.inr (Or.inl ⟨Or.inl hb, hs, ?_⟩))
      subst hs
      rw [setRegion_bound_null env self coords size hb]
    · refine Or.inr (Or.inr (Or.inr ⟨Or.inl hb, hs, ?_, ?_⟩))
      · rw [setRegion_bound_ok env self source coords size hb hs]
      · rw [setRegion_bound_ok env self source coords size hb hs]
        simp only [finalRegion, hb, if_false]
        exact submittedTasks_receive self _ hb

/-- C18, as stated, fails: on a volume whose binding exists, a region write with extent
(0,2,2), whose x component is not positive, returns success and submits four
scatter-copy tasks to the native backend. -/
theorem C18_counterexample :
    (setRegion sampleEnv boundVolume222 77 ⟨0, 0, 0⟩ ⟨0, 2, 2⟩).1 = Outcome.returned 1 ∧
    boundVolume222.submittedTasks.length = 0 ∧
    (setRegion sampleEnv boundVolume222 77 ⟨0, 0, 0⟩ ⟨0, 2, 2⟩).2.submittedTasks.length
      = 4 := by
  decide

/-- C18 (amended): `setRegion` does not validate the region. Its outcome, success or the
error raised, is the same for every origin and extent, so an extent with a component ≤ 0
is accepted like any other and a region whose origin + extent exceeds the dimensions of the
volume is not rejected; the call returns success exactly when the source is non-null and
the native binding exists or can be created (known voxel type and all dimensions > 0); and
when final extent y × final extent z fits a 32-bit `int`, a call that returns has
submitted that many scatter-copy tasks when the product is positive and none otherwise. -/
theorem C18_region_not_validated (env : Env) (self : Volume) (source : Ptr)
    (coords size coords2 size2 : vec3i) :
    (setRegion env self source coords size).1 = (setRegion env self source coords2 size2).1 ∧
    ((setRegion env self source coords size).1 = Outcome.returned 1 ↔
      (source ≠ nullptr ∧
        (self.ispcEquivalent ≠ none ∨
          (env.typeForString (getParamString self.params "voxelType" "unspecified")
              ≠ OSPDataType.OSP_UNKNOWN ∧
            0 < (getParam3i self.params "dimensions" ⟨0, 0, 0⟩).x ∧
            0 < (getParam3i self.params "dimensions" ⟨0, 0, 0⟩).y ∧
            0 < (getParam3i self.params "dimensions" ⟨0, 0, 0⟩).z)))) ∧
    ((-2 ^ 31 ≤ (finalRegion env self source coords size).regionSize.y
          * (finalRegion env self source coords size).regionSize.z ∧
        (finalRegion env self source coords size).regionSize.y
          * (finalRegion env self source coords size).regionSize.z < 2 ^ 31) →
      (setRegion env self source coords size).1 = Outcome.returned 1 →
      (setRegion env self source coords size).2.submittedTasks.length =
        self.submittedTasks.length +
          ((finalRegion env self source coords size).regionSize.y
            * (finalRegion env self source coords size).regionSize.z).toNat) := by
  have hsplat : vec3i.splat 0 = ⟨0, 0, 0⟩ := rfl
  have hdims : (0 < (getParam3i self.params "dimensions" ⟨0, 0, 0⟩).x ∧
      0 < (getParam3i self.params "dimensions" ⟨0, 0, 0⟩).y ∧
      0 < (getParam3i self.params "dimensions" ⟨0, 0, 0⟩).z) ↔
      ¬ reduce_min (getParam3i self.params "dimensions" (vec3i.splat 0)) ≤ 0 := by
    rw [reduce_min_le_zero_iff, hsplat]
    omega
  rcases setRegion_cases env self source coords size with
    ⟨hb, ht, h1⟩ | ⟨hb, ht, hd, h1⟩ | ⟨hc, hs, h1⟩ | ⟨hc, hs, h1, h2⟩
  · refine ⟨?_, ?_, ?_⟩
    · rw [h1, setRegion_unknown env self source coords2 size2 hb ht]
    · rw [h1]
      constructor
      · intro h
        simp at h
      · rintro ⟨_, hbn | ⟨htn, _⟩⟩
        · exact absurd hb hbn
        · exact absurd ht htn
    · intro _ h
      rw [h1] at h
      simp at h
  · refine ⟨?_, ?_, ?_⟩
    · rw [h1, setRegion_badDims env self source coords2 size2 hb ht hd]
    · rw [h1]
      constructor
      · intro h
        simp at h
      · rintro ⟨_, hbn | ⟨_, hpos⟩⟩
        · exact absurd hb hbn
        · exact absurd hd (hdims.1 hpos)
    · intro _ h
      rw [h1] at h
      simp at h
  · refine ⟨?_, ?_, ?_⟩
    · rcases setRegion_cases env self source coords2 size2 with
        ⟨hb, ht, _⟩ | ⟨hb, ht, hd, _⟩ | ⟨_, _, h3⟩ | ⟨_, hs2, _⟩
      · rcases hc with hbn | ⟨htn, _⟩
        · exact absurd hb hbn
        · exact absurd ht htn
      · rcases hc with hbn | ⟨_, hdn⟩
        · exact absurd hb hbn
        · exact absurd hd hdn
      · rw [h1, h3]
      · exact absurd hs hs2
    · rw [h1]
      constructor
      · intro h
        simp at h
      · rintro ⟨hsn, _⟩
        exact absurd hs hsn
    · intro _ h
      rw [h1] at h
      simp at h
  · refine ⟨?_, ?_, ?_⟩
    · rcases setRegion_cases env self source coords2 size2 with
        ⟨hb, ht, _⟩ | ⟨hb, ht, hd, _⟩ | ⟨_, hs2, _⟩ | ⟨_, _, h3, _⟩
      · rcases hc with hbn | ⟨htn, _⟩
        · exact absurd hb hbn
        · exact absurd ht htn
      · rcases hc with hbn | ⟨_, hdn⟩
        · exact absurd hb hbn
        · exact absurd hd hdn
      · exact absurd hs2 hs
      · rw [h1, h3]
    · rw [h1]
      constructor
      · intro _
        refine ⟨hs, ?_⟩
        rcases hc with hbn | ⟨htn, hdn⟩
        · exact Or.inl hbn
        · exact Or.inr ⟨htn, hdims.2 hdn⟩
      · intro _
        rfl
    · intro hfit _
      rw [h2, List.length_append, scatterTasks_length, int_mul_of_fits _ _ hfit]

theorem C18_region_not_validated_witness :
    (setRegion sampleEnv boundVolume222 77 ⟨5, 5, 5⟩ ⟨-1, 3, 2⟩).2.submittedTasks.length =
      boundVolume222.submittedTasks.length +
        ((finalRegion sampleEnv boundVolume222 77 ⟨5, 5, 5⟩ ⟨-1, 3, 2⟩).regionSize.y
          * (finalRegion sampleEnv boundVolume222 77 ⟨5, 5, 5⟩ ⟨-1, 3, 2⟩).regionSize.z).toNat :=
  (C18_region_not_validated sampleEnv boundVolume222 77 ⟨5, 5, 5⟩ ⟨-1, 3, 2⟩
    ⟨0, 0, 0⟩ ⟨1, 1, 1⟩).2.2 (by decide) (by decide)

end GhostBlockBrickedVolume

end ospray
